import Mathlib

/-!
# SimpleChatbot (src/chatbot.js): a shallow embedding

The chat widget of `src/chatbot.js` is embedded as state-passing Lean code.

* JavaScript strings are Lean strings; the string primitives the widget uses
  (`trim`, `includes`, `startsWith`, `replace` with a character class) are
  written over the character lists so that they evaluate.
* The widget object is the record `State`.  Besides the fields of the class it
  holds the visible message log (the children of `#chatMessages`), the text of
  the input box, and three observation fields: the HTTP requests issued so
  far, the strings handed to `eval`, and the asynchronous calls that were
  started without being awaited.
* What the host provides (case mapping, `Math.random`, the clock, `eval`) is
  the record `Runtime`; what the remote service answers is the record
  `Remote`.  Theorems quantify over both.
* A method is a function `State → Completion α`: it either completes normally
  or throws, and in both cases the state it reached is kept.
-/

namespace SimpleChatbot

/-! ## Strings -/

/-- Code points matched by `\s` in a JavaScript regular expression; the same
set is what `String.prototype.trim` strips (WhiteSpace and LineTerminator). -/
def isJsWhitespace (c : Char) : Bool :=
  let n := c.toNat
  n == 0x09 || n == 0x0A || n == 0x0B || n == 0x0C || n == 0x0D || n == 0x20 ||
  n == 0xA0 || n == 0x1680 || (0x2000 ≤ n && n ≤ 0x200A) || n == 0x2028 ||
  n == 0x2029 || n == 0x202F || n == 0x205F || n == 0x3000 || n == 0xFEFF

/-- The list form of `String.prototype.trim`. -/
def trimChars (cs : List Char) : List Char :=
  ((cs.dropWhile isJsWhitespace).reverse.dropWhile isJsWhitespace).reverse

/-- JavaScript `s.trim()`. -/
def trim (s : String) : String := String.mk (trimChars s.data)

/-- The list form of `startsWith`: does `cs` begin with `k`? -/
def startsWithChars : List Char → List Char → Bool
  | _, [] => true
  | [], _ :: _ => false
  | c :: cs, k :: ks => c == k && startsWithChars cs ks

/-- JavaScript `s.startsWith(k)`. -/
def startsWith (s k : String) : Bool := startsWithChars s.data k.data

/-- The list form of `includes`: does `k` occur in `cs` as a contiguous run? -/
def includesChars : List Char → List Char → Bool
  | [], k => startsWithChars [] k
  | c :: cs, k => startsWithChars (c :: cs) k || includesChars cs k

/-- JavaScript `s.includes(k)`. -/
def includes (s k : String) : Bool := includesChars s.data k.data

/-- JavaScript `s.substring(n)` for a string whose first `n` code units are
single characters. -/
def substringFrom (s : String) (n : Nat) : String := String.mk (s.data.drop n)

/-- Lower-casing of the letters A to Z only.  It agrees with
`String.prototype.toLowerCase` on every string of ASCII characters; it is used
to build a concrete `Runtime`, never in a general statement. -/
def asciiLowerCase (s : String) : String := String.mk (s.data.map Char.toLower)

/-! ## The data model -/

/-- Who a message is from: the second argument of `addMessage`. -/
inductive Sender where
  | user
  | bot
  deriving DecidableEq, Repr

/-- One message: an element appended to `#chatMessages`, or an entry of
`conversationHistory` (`role`, `content`). -/
structure Turn where
  role : Sender
  content : String
  deriving DecidableEq, Repr

/-- An HTTP request made with `fetch`, by endpoint. -/
inductive Request where
  | getHealth
  | postChat (message : String)
  | getModels
  | postModel (model : String)
  | postClear
  deriving DecidableEq, Repr

/-- An asynchronous call that `generateResponse` starts and does not await.
Its request has been issued; the rest of its body runs once the response has
arrived, after the synchronous code that started it has finished. -/
inductive Task where
  | handleModelsCommand
  | setModel (modelName : String)
  | clearConversation
  | checkOllamaConnection
  deriving DecidableEq, Repr

/-- A JSON value as far as the widget observes it: whether it is truthy, how a
template literal renders it, and whether it is a string.  `other` stands for
objects, arrays and non-integral numbers that convert to a string, all of
them truthy.  `unprintable` stands for an object, or an array holding one,
whose conversion to a string throws: one whose own `toString` property is not
callable, such as the parse of `{"toString": 1}`. -/
inductive JsVal where
  | undefined
  | null
  | bool (b : Bool)
  | num (n : Int)
  | str (s : String)
  | other (rendered : String)
  | unprintable
  deriving DecidableEq, Repr

/-- JavaScript truthiness. -/
def JsVal.truthy : JsVal → Bool
  | .undefined => false
  | .null => false
  | .bool b => b
  | .num n => n != 0
  | .str s => s != ""
  | .other _ => true
  | .unprintable => true

/-- How a template literal renders the value; `none` when the conversion
throws. -/
def JsVal.render : JsVal → Option String
  | .undefined => some "undefined"
  | .null => some "null"
  | .bool true => some "true"
  | .bool false => some "false"
  | .num n => some (toString n)
  | .str s => some s
  | .other r => some r
  | .unprintable => none

/-- The widget: the fields set by the constructor, then the page state it
owns, then the observation fields. -/
structure State where
  isOpen : Bool
  isTyping : Bool
  messageCount : Nat
  conversationHistory : List Turn
  ollamaConnected : JsVal
  chatMessages : List Turn
  inputValue : String
  requests : List Request
  evalCalls : List String
  pending : List Task
  deriving DecidableEq, Repr

/-- The state the constructor builds, before `init` runs. -/
def State.initial : State :=
  { isOpen := true, isTyping := false, messageCount := 0, conversationHistory := [],
    ollamaConnected := .bool false, chatMessages := [], inputValue := "",
    requests := [], evalCalls := [], pending := [] }

/-! ## Completions -/

/-- How a call ends: normally with a value, or abruptly with a thrown error.
The state reached is kept in both cases. -/
inductive Completion (α : Type) where
  | normal (value : α) (state : State)
  | abrupt (error : String) (state : State)
  deriving DecidableEq, Repr

/-- The state a completion ends in. -/
def Completion.state {α : Type} : Completion α → State
  | .normal _ s => s
  | .abrupt _ s => s

/-- Did the call throw? -/
def Completion.threw {α : Type} : Completion α → Bool
  | .normal _ _ => false
  | .abrupt _ _ => true

/-- A method body. -/
def Js (α : Type) : Type := State → Completion α

/-- Sequencing: an abrupt completion skips the rest. -/
def Js.bind {α β : Type} (m : Js α) (f : α → Js β) : Js β := fun s =>
  match m s with
  | .normal a s1 => f a s1
  | .abrupt e s1 => .abrupt e s1

instance : Monad Js where
  pure a := fun s => .normal a s
  bind := Js.bind

/-- JavaScript `throw`. -/
def throwJs {α : Type} (e : String) : Js α := fun s => .abrupt e s

/-- JavaScript `try { body } catch (error) { handler }`. -/
def tryCatchJs {α : Type} (body : Js α) (handler : String → Js α) : Js α := fun s =>
  match body s with
  | .normal a s1 => .normal a s1
  | .abrupt e s1 => handler e s1

/-- Read the widget. -/
def getState : Js State := fun s => .normal s s

/-- Update the widget. -/
def modifyState (f : State → State) : Js Unit := fun s => .normal () (f s)

/-- The error of a template literal whose value does not convert to a string. -/
def conversionError : String := "TypeError: Cannot convert object to primitive value"

/-- The substitution of a value in a template literal: its rendering, or a
`TypeError` when the conversion throws. -/
def template (v : JsVal) : Js String :=
  match v.render with
  | some rendered => pure rendered
  | none => throwJs conversionError

/-- The substitutions for the elements of an array, in order. -/
def templates : List JsVal → Js (List String)
  | [] => pure []
  | v :: vs => do
    let rendered ← template v
    let rest ← templates vs
    pure (rendered :: rest)

/-! ## Presentation bookkeeping -/

/-- `addMessage(content, sender)`, lines 219-247: append the message to the
log and, when the panel is minimised, count it as unread.  `content` is a
string here: `formatMessage` calls `content.replace`, so a caller holding a
value that is not a string throws instead (see `sendMessage`). -/
def addMessage (content : String) (sender : Sender) : Js Unit :=
  modifyState fun s =>
    let s1 := { s with chatMessages := s.chatMessages ++ [⟨sender, content⟩] }
    if !s1.isOpen then { s1 with messageCount := s1.messageCount + 1 } else s1

/-- `showTypingIndicator()`, lines 257-265. -/
def showTypingIndicator : Js Unit :=
  modifyState fun s => { s with isTyping := true }

/-- `hideTypingIndicator()`, lines 267-271. -/
def hideTypingIndicator : Js Unit :=
  modifyState fun s => { s with isTyping := false }

/-- `toggleChat()`, lines 418-433. -/
def toggleChat : Js Unit :=
  modifyState fun s =>
    let s1 := { s with isOpen := !s.isOpen }
    if s1.isOpen then { s1 with messageCount := 0 } else s1

/-- `closeChat()`, lines 435-442. -/
def closeChat : Js Unit :=
  modifyState fun s => { s with isOpen := false }

/-! ## The host and the remote service -/

/-- A draw of `Math.random()`: the number `num / den`, which lies in `[0, 1)`. -/
structure Unit01 where
  num : Nat
  den : Nat
  lt : num < den

/-- What `eval` does with a string: it returns a value, rendered here the way
the template literal of line 390 renders it, or it throws. -/
inductive EvalOutcome where
  | value (rendered : String)
  | throws
  deriving DecidableEq, Repr

/-- The host functions the responder calls.  `random` and the two locale
strings are what `Math.random()` and the clock give when the responder runs;
the `retry` fields are what they give when the responder runs a second time
within the same `sendMessage`. -/
structure Runtime where
  toLowerCase : String → String
  random : Unit01
  localeTimeString : String
  localeDateString : String
  eval : String → EvalOutcome
  retryRandom : Unit01
  retryTimeString : String
  retryDateString : String

/-- The host as a second run of the responder meets it. -/
def Runtime.retry (rt : Runtime) : Runtime :=
  { rt with
    random := rt.retryRandom,
    localeTimeString := rt.retryTimeString,
    localeDateString := rt.retryDateString }

/-- The host as the `catch` of `sendMessage` meets it.  The one error thrown
after the responder has run is that of the template literal of line 84; every
other error of the `try` is thrown before line 79 is reached. -/
def Runtime.afterError (rt : Runtime) (error : String) : Runtime :=
  if error == conversionError then rt.retry else rt

/-- The body of an HTTP response as `response.json()` delivers it: the promise
rejects, or it yields JSON `null`, or a value whose fields can be read. -/
inductive Body (α : Type) where
  | jsonRejects
  | null
  | value (fields : α)
  deriving DecidableEq, Repr

/-- What `fetch` does: the promise rejects, or a response arrives with its
`ok` flag and its body. -/
inductive Fetched (α : Type) where
  | rejects
  | response (ok : Bool) (body : Body α)
  deriving DecidableEq, Repr

/-- The fields of the `/chat` reply that the widget reads. -/
structure ChatFields where
  success : JsVal
  response : JsVal
  deriving DecidableEq, Repr

/-- The fields of the `/health` reply that the widget reads. -/
structure HealthFields where
  ollama_connected : JsVal
  current_model : JsVal
  deriving DecidableEq, Repr

/-- The `models` field of the `/models` reply: absent or `null`, an array, a
string, or a value without a `length`. -/
inductive ModelsVal where
  | nullish
  | array (items : List JsVal)
  | str (s : String)
  | noLength
  deriving DecidableEq, Repr

/-- The fields of the `/model` reply that the widget reads. -/
structure ModelFields where
  success : JsVal
  error : JsVal
  deriving DecidableEq, Repr

/-- The field of the `/clear` reply that the widget reads. -/
structure ClearFields where
  success : JsVal
  deriving DecidableEq, Repr

/-- What the remote service answers on each endpoint. -/
structure Remote where
  chat : Fetched ChatFields
  health : Fetched HealthFields
  models : Fetched ModelsVal
  model : Fetched ModelFields
  clear : Fetched ClearFields

/-- Record that a request was issued. -/
def issue (r : Request) : Js Unit :=
  modifyState fun s => { s with requests := s.requests ++ [r] }

/-- The request an asynchronous call issues before its first `await`. -/
def Task.request : Task → Request
  | .handleModelsCommand => .getModels
  | .setModel modelName => .postModel modelName
  | .clearConversation => .postClear
  | .checkOllamaConnection => .getHealth

/-- Call an asynchronous method without awaiting it: its request goes out now
and the rest of its body is left pending. -/
def start (t : Task) : Js Unit :=
  modifyState fun s =>
    { s with requests := s.requests ++ [t.request], pending := s.pending ++ [t] }

/-! ## The local responder -/

/-- `containsAny(str, keywords)`, lines 410-412. -/
def containsAny (str : String) (keywords : List String) : Bool :=
  keywords.any fun keyword => includes str keyword

/-- `getRandomResponse(responses)`, lines 414-416: the element at index
`Math.floor(Math.random() * responses.length)`. -/
def getRandomResponse (rt : Runtime) (responses : List String) : String :=
  responses.getD (rt.random.num * responses.length / rt.random.den) "undefined"

/-- Membership in the character class `[0-9+\-*/().\s]`. -/
def isMathChar (c : Char) : Bool :=
  c.isDigit || c == '+' || c == '-' || c == '*' || c == '/' || c == '(' || c == ')' ||
  c == '.' || isJsWhitespace c

/-- The call `message.replace(/[^0-9+\-*/().\s]/g, '')` of line 387. -/
def stripNonMath (message : String) : String := String.mk (message.data.filter isMathChar)

/-- The test `/^[0-9+\-*/().\s]+$/.test(s)` of line 388. -/
def mathClassOnly (s : String) : Bool := !s.data.isEmpty && s.data.all isMathChar

/-- The call `eval(mathExpression)` of line 389, recorded in `evalCalls`. -/
def evalJs (rt : Runtime) (code : String) : Js String := fun s =>
  let s1 := { s with evalCalls := s.evalCalls ++ [code] }
  match rt.eval code with
  | .value rendered => .normal rendered s1
  | .throws => .abrupt "eval" s1

/-- The reply of the `catch` at line 393. -/
def mathHelpMessage : String :=
  "I can help with basic math! Try asking something like 'What is 5 + 3?' or 'Calculate 10 * 2'"

/-- The candidates of the default reply, lines 398-407. -/
def defaultResponses : List String :=
  [ "That's interesting! Can you tell me more about that?",
    "I understand. How can I help you with that?",
    "That's a great question! Let me think about that...",
    "I see what you mean. What would you like to know more about?",
    "Thanks for sharing that with me! Is there anything specific you'd like help with?",
    "I'm here to help! Could you provide a bit more detail about what you're looking for?",
    "That sounds interesting! What would you like to explore further?",
    "I'm listening! How can I assist you with this topic?" ]

/-- The arithmetic branch, lines 384-395.  The result is `some reply` when the
branch returns, and `none` when control falls through to the default reply. -/
def mathBranch (rt : Runtime) (message : String) : Js (Option String) :=
  if includes message "+" || includes message "-" || includes message "*" ||
      includes message "/" || includes message "=" then
    tryCatchJs
      (let mathExpression := stripNonMath message
       if mathExpression != "" && mathClassOnly mathExpression then do
         let result ← evalJs rt mathExpression
         pure (some ("The answer is: " ++ result))
       else
         pure none)
      (fun _ => pure (some mathHelpMessage))
  else
    pure none

/-- `generateResponse(userMessage)`, lines 273-408. -/
def generateResponse (rt : Runtime) (userMessage : String) : Js String :=
  let message := rt.toLowerCase userMessage
  if startsWith message "/models" then do
    start .handleModelsCommand
    pure ""
  else if startsWith message "/model " then do
    let modelName := trim (substringFrom userMessage 7)
    start (.setModel modelName)
    pure ""
  else if startsWith message "/clear" then do
    start .clearConversation
    pure ""
  else if startsWith message "/status" then do
    start .checkOllamaConnection
    pure ""
  else if containsAny message ["hello", "hi", "hey", "good morning", "good afternoon",
      "good evening"] then
    pure (getRandomResponse rt
      [ "Hello! How can I help you today?",
        "Hi there! What can I do for you?",
        "Hey! Nice to meet you. How may I assist you?",
        "Hello! I'm here to help. What do you need?" ])
  else if containsAny message ["help", "support", "assist"] then
    pure (getRandomResponse rt
      [ "I'm here to help! You can ask me about various topics, get information, or just have a conversation. What would you like to know?",
        "I can help you with questions, provide information, or just chat! What do you need assistance with?",
        "Sure! I can help with general questions, provide explanations, or just have a friendly conversation. What's on your mind?" ])
  else if containsAny message ["what can you do", "what do you do", "capabilities",
      "features"] then
    pure "I can help you with various tasks like answering questions, providing information, having conversations, helping with problem-solving, and more! Just ask me anything you'd like to know."
  else if containsAny message ["weather", "temperature", "rain", "sunny", "cloudy"] then
    pure "I don't have access to real-time weather data, but I'd recommend checking a weather app or website for current conditions in your area!"
  else if containsAny message ["time", "date", "what time", "current time"] then
    pure ("The current time is " ++ rt.localeTimeString ++ " and the date is " ++
      rt.localeDateString ++ ".")
  else if containsAny message ["thank you", "thanks", "appreciate"] then
    pure (getRandomResponse rt
      [ "You're welcome! Happy to help!",
        "My pleasure! Is there anything else I can help you with?",
        "You're very welcome! Feel free to ask if you need anything else.",
        "Glad I could help! Let me know if you have more questions." ])
  else if containsAny message ["bye", "goodbye", "see you", "farewell", "exit", "quit"] then
    pure (getRandomResponse rt
      [ "Goodbye! Have a great day!",
        "See you later! Take care!",
        "Bye! Feel free to come back anytime!",
        "Farewell! It was nice chatting with you!" ])
  else if containsAny message ["how are you", "how do you do", "how's it going"] then
    pure (getRandomResponse rt
      [ "I'm doing great, thank you for asking! How are you doing today?",
        "I'm functioning perfectly! How can I help you today?",
        "I'm doing well! Ready to assist you with whatever you need.",
        "All systems are running smoothly! How are you doing?" ])
  else if containsAny message ["what is your name", "who are you", "what's your name"] then
    pure "I'm ChatBot Assistant, your friendly AI helper! I'm here to assist you with questions, conversations, and provide helpful information."
  else if containsAny message ["how old are you", "what's your age", "age"] then
    pure "I'm an AI assistant, so I don't have an age in the traditional sense! I was created to help and assist users like you."
  else if containsAny message ["joke", "funny", "humor", "laugh"] then
    pure (getRandomResponse rt
      [ "Why don't scientists trust atoms? Because they make up everything! 😄",
        "What do you call a fake noodle? An impasta! 🍝",
        "Why did the scarecrow win an award? He was outstanding in his field! 🌾",
        "What do you call a bear with no teeth? A gummy bear! 🐻" ])
  else do
    match ← mathBranch rt message with
    | some reply => pure reply
    | none => pure (getRandomResponse rt defaultResponses)

/-! ## The remote-call adapter -/

/-- Await the response and its `json()`, without looking at `ok`: the parsed
body, `none` for JSON `null`.  Throws when either promise rejects. -/
def receiveJson {α : Type} : Fetched α → Js (Option α)
  | .rejects => throwJs "TypeError: Failed to fetch"
  | .response _ .jsonRejects => throwJs "SyntaxError: Unexpected token"
  | .response _ .null => pure none
  | .response _ (.value fields) => pure (some fields)

/-- Read a property of the parsed body: a `TypeError` on `null`. -/
def fieldsOf {α : Type} : Option α → Js α
  | none => throwJs "TypeError: Cannot read properties of null"
  | some fields => pure fields

/-- `sendToOllama(message)`, lines 126-140. -/
def sendToOllama (net : Remote) (message : String) : Js (Option ChatFields) := do
  issue (.postChat message)
  match net.chat with
  | .rejects => throwJs "TypeError: Failed to fetch"
  | .response ok body =>
    if !ok then
      throwJs "HTTP error!"
    else
      receiveJson (.response ok body)

/-- `checkOllamaConnection()`, lines 106-124, from the point where the
response to its request arrives. -/
def checkOllamaConnectionResumed (net : Remote) : Js Unit :=
  tryCatchJs
    (do
      let data ← receiveJson net.health
      let fields ← fieldsOf data
      modifyState fun s => { s with ollamaConnected := fields.ollama_connected }
      if (← getState).ollamaConnected.truthy then
        let model ← template fields.current_model
        addMessage ("🤖 Connected to Ollama! Using model: " ++ model) .bot
      else
        addMessage "⚠️ Ollama not detected. Using fallback responses." .bot)
    (fun _ => do
      modifyState fun s => { s with ollamaConnected := .bool false }
      addMessage "⚠️ Backend server not running. Using fallback responses." .bot)

/-- `checkOllamaConnection()`, lines 106-124.  Calling `fetch` does not throw
(a failure rejects the promise it returns), so the request is issued first and
the `try` covers what follows. -/
def checkOllamaConnection (net : Remote) : Js Unit := do
  issue .getHealth
  checkOllamaConnectionResumed net

/-- `getAvailableModels()`, lines 142-151, from the arrival of the response. -/
def getAvailableModelsResumed (net : Remote) : Js ModelsVal :=
  tryCatchJs
    (do
      let data ← receiveJson net.models
      fieldsOf data)
    (fun _ => pure (.array []))

/-- `handleModelsCommand()`, lines 204-217, from the arrival of the response. -/
def handleModelsCommandResumed (net : Remote) : Js Unit :=
  tryCatchJs
    (do
      let models ← getAvailableModelsResumed net
      match models with
      | .nullish => throwJs "TypeError: Cannot read properties of undefined"
      | .array items =>
        if items.length > 0 then
          let names ← templates items
          let modelsList := String.intercalate "\n" (names.map fun model => "• " ++ model)
          addMessage ("📦 Available models:\n" ++ modelsList ++
            "\n\nUse /model <name> to switch models.") .bot
        else
          addMessage "❌ No models found. Make sure Ollama is running and has models installed." .bot
      | .str text =>
        if text.length > 0 then
          throwJs "TypeError: models.map is not a function"
        else
          addMessage "❌ No models found. Make sure Ollama is running and has models installed." .bot
      | .noLength =>
        addMessage "❌ No models found. Make sure Ollama is running and has models installed." .bot)
    (fun _ => addMessage "❌ Error retrieving models list." .bot)

/-- `handleModelsCommand()`, lines 204-217. -/
def handleModelsCommand (net : Remote) : Js Unit := do
  issue .getModels
  handleModelsCommandResumed net

/-- `setModel(modelName)`, lines 153-175, from the arrival of the response.
The value it returns is dropped by its only caller and is left out. -/
def setModelResumed (net : Remote) (modelName : String) : Js Unit :=
  tryCatchJs
    (do
      let data ← receiveJson net.model
      let fields ← fieldsOf data
      if fields.success.truthy then
        addMessage ("✅ Switched to model: " ++ modelName) .bot
      else
        let error ← template fields.error
        addMessage ("❌ Failed to switch model: " ++ error) .bot)
    (fun _ => addMessage "❌ Error switching model" .bot)

/-- `setModel(modelName)`, lines 153-175. -/
def setModel (net : Remote) (modelName : String) : Js Unit := do
  issue (.postModel modelName)
  setModelResumed net modelName

/-- `clearConversation()`, lines 177-202, from the arrival of the response.
On success the history is emptied and the log is replaced by one greeting. -/
def clearConversationResumed (net : Remote) : Js Unit :=
  tryCatchJs
    (do
      let data ← receiveJson net.clear
      let fields ← fieldsOf data
      if fields.success.truthy then
        modifyState fun s =>
          { s with
            conversationHistory := [],
            chatMessages := [⟨.bot, "Conversation cleared! How can I help you today?"⟩] }
      else
        pure ())
    (fun _ => pure ())

/-- `clearConversation()`, lines 177-202. -/
def clearConversation (net : Remote) : Js Unit := do
  issue .postClear
  clearConversationResumed net

/-- The rest of the body of a call that was started and not awaited. -/
def Task.resume (net : Remote) : Task → Js Unit
  | .handleModelsCommand => handleModelsCommandResumed net
  | .setModel modelName => setModelResumed net modelName
  | .clearConversation => clearConversationResumed net
  | .checkOllamaConnection => checkOllamaConnectionResumed net

/-- Run the pending calls to their end, oldest first. -/
def runTasks (net : Remote) : List Task → Js Unit
  | [] => pure ()
  | t :: ts => do
    t.resume net
    runTasks net ts

/-- Let every pending call finish. -/
def settle (net : Remote) : Js Unit := fun s =>
  runTasks net s.pending { s with pending := [] }

/-! ## Submitting a message -/

/-- `sendMessage()`, lines 49-98.  The text is read from the input box.  In
the success branch `addMessage` formats its argument with `content.replace`:
a reply that is not a string throws there, before anything is appended, and
the `catch` takes over.  In the other branch the template literal of line 84
is evaluated after the fallback reply was appended; when it throws, the
`catch` runs the responder once more. -/
def sendMessage (rt : Runtime) (net : Remote) : Js Unit := do
  let message := trim (← getState).inputValue
  if message == "" then
    pure ()
  else do
    addMessage message .user
    modifyState fun s => { s with inputValue := "" }
    modifyState fun s =>
      { s with conversationHistory := s.conversationHistory ++ [⟨.user, message⟩] }
    showTypingIndicator
    tryCatchJs
      (do
        let response ← sendToOllama net message
        hideTypingIndicator
        let fields ← fieldsOf response
        if fields.success.truthy then
          match fields.response with
          | .str text => do
            addMessage text .bot
            modifyState fun s =>
              { s with conversationHistory := s.conversationHistory ++ [⟨.bot, text⟩] }
          | _ => throwJs "TypeError: content.replace is not a function"
        else do
          let fallbackResponse ← generateResponse rt message
          addMessage fallbackResponse .bot
          modifyState fun s =>
            { s with conversationHistory := s.conversationHistory ++ [⟨.bot, fallbackResponse⟩] }
          let detail ← template fields.response
          addMessage ("⚠️ " ++ detail) .bot)
      (fun error => do
        hideTypingIndicator
        let fallbackResponse ← generateResponse (rt.afterError error) message
        addMessage fallbackResponse .bot
        modifyState fun s =>
          { s with conversationHistory := s.conversationHistory ++ [⟨.bot, fallbackResponse⟩] }
        addMessage "⚠️ Cannot connect to Ollama. Using fallback responses." .bot)

/-- `sendQuickReply(message)`, lines 100-104. -/
def sendQuickReply (rt : Runtime) (net : Remote) (message : String) : Js Unit := do
  modifyState fun s => { s with inputValue := message }
  sendMessage rt net

/-! ## A reference model of `eval` on arithmetic text

`eval` belongs to the host.  To evaluate the responder on concrete messages a
fragment of its behaviour is written out: scripts over digits, `+ - * /`,
parentheses and blanks whose evaluation stays within exact integer arithmetic,
and the scripts that are one regular expression literal with a body of digits.
On every other script (a dot, a line break, the operator `**`, a comment, any
other regular expression literal, a numeral with a leading zero, a quotient
that is not an integer, a magnitude above 2^53) the fragment says nothing. -/

/-- The tokens of the fragment. -/
inductive Tok where
  | num (n : Nat)
  | plus
  | minus
  | star
  | slash
  | lparen
  | rparen
  | incr
  | decr
  | power
  deriving DecidableEq, Repr

/-- Is the token a numeric literal, one of the four operators `+ - * /`, or a
parenthesis? -/
def Tok.isArithmetic : Tok → Bool
  | .num _ => true
  | .plus => true
  | .minus => true
  | .star => true
  | .slash => true
  | .lparen => true
  | .rparen => true
  | .incr => false
  | .decr => false
  | .power => false

/-- What the scanner is in the middle of: nothing, a numeral (its value, and
whether it began with `0`), or a punctuator that may still grow (`+` into
`++`, `-` into `--`, `*` into the exponentiation operator `**`, `/` into a
comment). -/
inductive Scan where
  | idle
  | number (value : Nat) (zeroFirst : Bool)
  | op (c : Char)
  deriving DecidableEq, Repr

/-- The token of a one-character punctuator. -/
def opTok (c : Char) : Tok :=
  if c == '+' then .plus else if c == '-' then .minus else if c == '*' then .star else .slash

/-- The tokens that end when the input ends or a new token begins. -/
def Scan.flush : Scan → List Tok
  | .idle => []
  | .number value _ => [.num value]
  | .op c => [opTok c]

/-- Begin a token at `c`: the tokens completed at once and the new scanner
state; `none` when `c` is outside the fragment. -/
def scanFresh (c : Char) : Option (List Tok × Scan) :=
  if c == '\n' || c == '\r' || c.toNat == 0x2028 || c.toNat == 0x2029 then none
  else if isJsWhitespace c then some ([], .idle)
  else if c.isDigit then some ([], .number (c.toNat - 48) (c == '0'))
  else if c == '+' || c == '-' || c == '*' || c == '/' then some ([], .op c)
  else if c == '(' then some ([.lparen], .idle)
  else if c == ')' then some ([.rparen], .idle)
  else none

/-- One step of the scanner, with the longest-match rule for `++`, `--` and
`**`. -/
def scanStep (st : Scan) (c : Char) : Option (List Tok × Scan) :=
  match st with
  | .idle => scanFresh c
  | .number value zeroFirst =>
    if c.isDigit then
      if zeroFirst then none else some ([], .number (value * 10 + (c.toNat - 48)) false)
    else
      (scanFresh c).map fun r => (.num value :: r.1, r.2)
  | .op o =>
    if o == '+' && c == '+' then some ([.incr], .idle)
    else if o == '-' && c == '-' then some ([.decr], .idle)
    else if o == '*' && c == '*' then some ([.power], .idle)
    else if o == '/' && (c == '/' || c == '*') then none
    else (scanFresh c).map fun r => (opTok o :: r.1, r.2)

/-- The scanner. -/
def scan : Scan → List Char → Option (List Tok)
  | st, [] => some st.flush
  | st, c :: cs =>
    match scanStep st c with
    | none => none
    | some (emitted, st1) => (scan st1 cs).map fun rest => emitted ++ rest

/-- The result of parsing and evaluating a token list: a value and the tokens
left over, a certain throw, or a script outside the fragment. -/
inductive Parsed where
  | ok (value : Int) (rest : List Tok)
  | throws
  | unmodelled
  deriving DecidableEq, Repr

/-- The grammar level being parsed.  `mulRest` and `addRest` carry the value
of the operands read so far (left associativity). -/
inductive Goal where
  | unary
  | multiplicative
  | mulRest (acc : Int)
  | additive
  | addRest (acc : Int)
  deriving DecidableEq, Repr

/-- Keep a value only while doubles represent it exactly. -/
def exactly (value : Int) (rest : List Tok) : Parsed :=
  if value.natAbs ≤ 2 ^ 53 then .ok value rest else .unmodelled

/-- After a primary expression: `++`, `--`, a call or a second operand throw;
an exponentiation is outside the fragment. -/
def afterPrimary (value : Int) (rest : List Tok) : Parsed :=
  match rest with
  | .incr :: _ => .throws
  | .decr :: _ => .throws
  | .lparen :: _ => .throws
  | .num _ :: _ => .throws
  | .power :: _ => .unmodelled
  | _ => exactly value rest

/-- Recursive descent over the tokens, evaluating on the way.  `fuel` bounds
the depth; running out of it leaves the script unmodelled. -/
def parse : Nat → Goal → List Tok → Parsed
  | 0, _, _ => .unmodelled
  | fuel + 1, .unary, ts =>
    match ts with
    | .plus :: rest => parse fuel .unary rest
    | .minus :: rest =>
      match parse fuel .unary rest with
      | .ok value rest1 => .ok (-value) rest1
      | other => other
    | .incr :: _ => .throws
    | .decr :: _ => .throws
    | .num n :: rest => afterPrimary (Int.ofNat n) rest
    | .lparen :: rest =>
      match parse fuel .additive rest with
      | .ok value (.rparen :: rest1) => afterPrimary value rest1
      | .ok _ _ => .throws
      | other => other
    | .slash :: _ => .unmodelled
    | .power :: _ => .unmodelled
    | .star :: _ => .throws
    | .rparen :: _ => .throws
    | [] => .throws
  | fuel + 1, .multiplicative, ts =>
    match parse fuel .unary ts with
    | .ok value rest => parse fuel (.mulRest value) rest
    | other => other
  | fuel + 1, .mulRest acc, ts =>
    match ts with
    | .star :: rest =>
      match parse fuel .unary rest with
      | .ok value rest1 =>
        if (acc * value).natAbs ≤ 2 ^ 53 then parse fuel (.mulRest (acc * value)) rest1
        else .unmodelled
      | other => other
    | .slash :: rest =>
      match parse fuel .unary rest with
      | .ok value rest1 =>
        if value != 0 && acc % value == 0 then parse fuel (.mulRest (acc / value)) rest1
        else .unmodelled
      | other => other
    | _ => .ok acc ts
  | fuel + 1, .additive, ts =>
    match parse fuel .multiplicative ts with
    | .ok value rest => parse fuel (.addRest value) rest
    | other => other
  | fuel + 1, .addRest acc, ts =>
    match ts with
    | .plus :: rest =>
      match parse fuel .multiplicative rest with
      | .ok value rest1 =>
        if (acc + value).natAbs ≤ 2 ^ 53 then parse fuel (.addRest (acc + value)) rest1
        else .unmodelled
      | other => other
    | .minus :: rest =>
      match parse fuel .multiplicative rest with
      | .ok value rest1 =>
        if (acc - value).natAbs ≤ 2 ^ 53 then parse fuel (.addRest (acc - value)) rest1
        else .unmodelled
      | other => other
    | _ => .ok acc ts

/-- The digits between the slashes when the script, blanks at its ends apart,
is `/`, one or more digits, `/`: a regular expression literal. -/
def regexLiteralBody (code : String) : Option String :=
  match trimChars code.data with
  | '/' :: rest =>
    match rest.reverse with
    | '/' :: reversedBody =>
      if !reversedBody.isEmpty && reversedBody.all Char.isDigit then
        some (String.mk reversedBody.reverse)
      else none
    | _ => none
  | _ => none

/-- The fragment of `eval`: `some` outcome where the fragment is certain of
it, `none` elsewhere.  A regular expression literal evaluates to a `RegExp`
object, which a template literal renders as its source between slashes.  A
script of blanks only is an empty program, whose value is `undefined`. -/
def jsEvalFragment (code : String) : Option EvalOutcome :=
  match regexLiteralBody code with
  | some body => some (.value ("/" ++ body ++ "/"))
  | none =>
    match scan .idle code.data with
    | none => none
    | some [] => some (.value "undefined")
    | some ts =>
      match parse (4 * ts.length + 4) .additive ts with
      | .ok value [] => some (.value (toString value))
      | .ok _ (.rparen :: _) => some .throws
      | .ok _ _ => none
      | .throws => some .throws
      | .unmodelled => none

/-- The host agrees with the fragment wherever the fragment speaks. -/
def Runtime.EvalAgrees (rt : Runtime) : Prop :=
  ∀ code outcome, jsEvalFragment code = some outcome → rt.eval code = outcome

/-- A concrete host for evaluating examples: ASCII lower-casing, a given
random draw and clock (the same on a second run of the responder), and the
fragment of `eval` (throwing outside it). -/
def referenceRuntime (random : Unit01) (time date : String) : Runtime :=
  { toLowerCase := asciiLowerCase,
    random := random,
    localeTimeString := time,
    localeDateString := date,
    eval := fun code => (jsEvalFragment code).getD .throws,
    retryRandom := random,
    retryTimeString := time,
    retryDateString := date }

/-! ## Statement vocabulary -/

/-- The calls `addMessage(t.content, t.role)` for the given Turns, in order. -/
def addMessages : List Turn → Js Unit
  | [] => pure ()
  | t :: ts => do
    addMessage t.content t.role
    addMessages ts

/-- The reply text the remote send delivers: the `response` string of a
2xx answer whose body parses and has a truthy `success`.  `none` is every
way of reporting failure: `fetch` rejects, the status is not 2xx, the body
does not parse or is `null`, `success` is not truthy, or the reply is not a
string. -/
def Fetched.delivers : Fetched ChatFields → Option String
  | .response true (.value ⟨success, .str text⟩) => if success.truthy then some text else none
  | _ => none

/-- A warning Turn: a message of the bot that begins with the warning sign. -/
def Turn.isWarning (t : Turn) : Bool :=
  t.role == .bot && startsWith t.content "⚠️"

/-- The action returns one fixed reply from every state and only appends to
the observation fields; what it hands to `eval` satisfies `P`. -/
def Framed (P : List String → Prop) (m : Js String) : Prop :=
  ∃ reply reqs calls tasks, P calls ∧ ∀ s : State,
    m s = .normal reply
      { s with requests := s.requests ++ reqs, evalCalls := s.evalCalls ++ calls,
               pending := s.pending ++ tasks }

/-- What `generateResponse` hands to `eval` for a lower-cased message:
nothing, or the stripped message, which then passes the test of line 388. -/
def EvalArgs (message : String) (calls : List String) : Prop :=
  calls = [] ∨ (calls = [stripNonMath message] ∧ mathClassOnly (stripNonMath message) = true)

/-- The text of the warning `sendMessage` shows on the fallback path: the
service's own `response` when a body with a falsy `success` arrived and that
response converts to a string, the fixed connection warning in every other
case. -/
def fallbackWarning : Fetched ChatFields → String
  | .response true (.value fields) =>
    if fields.success.truthy then "⚠️ Cannot connect to Ollama. Using fallback responses."
    else
      match fields.response.render with
      | some detail => "⚠️ " ++ detail
      | none => "⚠️ Cannot connect to Ollama. Using fallback responses."
  | _ => "⚠️ Cannot connect to Ollama. Using fallback responses."

/-- The template literal of line 84 throws: a body with a falsy `success`
arrived under a 2xx status and its `response` does not convert to a string. -/
def Fetched.warningThrows : Fetched ChatFields → Bool
  | .response true (.value fields) => !fields.success.truthy && fields.response.render.isNone
  | _ => false

/-- A state with the panel minimised and the text "  hi, bye " in the box. -/
def exampleState : State :=
  { State.initial with isOpen := false, inputValue := "  hi, bye " }

/-- A service that cannot be reached on any endpoint. -/
def unreachable : Remote :=
  ⟨.rejects, .rejects, .rejects, .rejects, .rejects⟩

/-- The keyword categories of the responder, as the specification lists them. -/
inductive Category where
  | greeting
  | help
  | capability
  | weather
  | timeDate
  | thanks
  | goodbye
  | howAreYou
  | identity
  | age
  | joke
  deriving DecidableEq, Repr

/-- The fixed priority of the categories. -/
def Category.order : List Category :=
  [.greeting, .help, .capability, .weather, .timeDate, .thanks, .goodbye, .howAreYou,
   .identity, .age, .joke]

/-- The keyword set of each category. -/
def Category.keywords : Category → List String
  | .greeting => ["hello", "hi", "hey", "good morning", "good afternoon", "good evening"]
  | .help => ["help", "support", "assist"]
  | .capability => ["what can you do", "what do you do", "capabilities", "features"]
  | .weather => ["weather", "temperature", "rain", "sunny", "cloudy"]
  | .timeDate => ["time", "date", "what time", "current time"]
  | .thanks => ["thank you", "thanks", "appreciate"]
  | .goodbye => ["bye", "goodbye", "see you", "farewell", "exit", "quit"]
  | .howAreYou => ["how are you", "how do you do", "how's it going"]
  | .identity => ["what is your name", "who are you", "what's your name"]
  | .age => ["how old are you", "what's your age", "age"]
  | .joke => ["joke", "funny", "humor", "laugh"]

/-- The replies a category can give. -/
def Category.candidates (rt : Runtime) : Category → List String
  | .greeting =>
    [ "Hello! How can I help you today?",
      "Hi there! What can I do for you?",
      "Hey! Nice to meet you. How may I assist you?",
      "Hello! I'm here to help. What do you need?" ]
  | .help =>
    [ "I'm here to help! You can ask me about various topics, get information, or just have a conversation. What would you like to know?",
      "I can help you with questions, provide information, or just chat! What do you need assistance with?",
      "Sure! I can help with general questions, provide explanations, or just have a friendly conversation. What's on your mind?" ]
  | .capability =>
    [ "I can help you with various tasks like answering questions, providing information, having conversations, helping with problem-solving, and more! Just ask me anything you'd like to know." ]
  | .weather =>
    [ "I don't have access to real-time weather data, but I'd recommend checking a weather app or website for current conditions in your area!" ]
  | .timeDate =>
    [ "The current time is " ++ rt.localeTimeString ++ " and the date is " ++
        rt.localeDateString ++ "." ]
  | .thanks =>
    [ "You're welcome! Happy to help!",
      "My pleasure! Is there anything else I can help you with?",
      "You're very welcome! Feel free to ask if you need anything else.",
      "Glad I could help! Let me know if you have more questions." ]
  | .goodbye =>
    [ "Goodbye! Have a great day!",
      "See you later! Take care!",
      "Bye! Feel free to come back anytime!",
      "Farewell! It was nice chatting with you!" ]
  | .howAreYou =>
    [ "I'm doing great, thank you for asking! How are you doing today?",
      "I'm functioning perfectly! How can I help you today?",
      "I'm doing well! Ready to assist you with whatever you need.",
      "All systems are running smoothly! How are you doing?" ]
  | .identity =>
    [ "I'm ChatBot Assistant, your friendly AI helper! I'm here to assist you with questions, conversations, and provide helpful information." ]
  | .age =>
    [ "I'm an AI assistant, so I don't have an age in the traditional sense! I was created to help and assist users like you." ]
  | .joke =>
    [ "Why don't scientists trust atoms? Because they make up everything! 😄",
      "What do you call a fake noodle? An impasta! 🍝",
      "Why did the scarecrow win an award? He was outstanding in his field! 🌾",
      "What do you call a bear with no teeth? A gummy bear! 🐻" ]

/-- The first category, in priority order, one of whose keywords occurs in the
lower-cased message. -/
def firstCategory (lowered : String) : Option Category :=
  Category.order.find? fun c => containsAny lowered c.keywords

/-- Does the lower-cased message start with a command name? -/
def isCommand (lowered : String) : Bool :=
  startsWith lowered "/models" || startsWith lowered "/model " ||
  startsWith lowered "/clear" || startsWith lowered "/status"

/-- The operator test of line 384. -/
def hasOperator (message : String) : Bool :=
  includes message "+" || includes message "-" || includes message "*" ||
  includes message "/" || includes message "="

/-- The call a command delegates to, by the tests of lines 277-296 in their
order: `lowered` is the lower-cased message, `original` the message itself. -/
def commandTask (lowered original : String) : Option Task :=
  if startsWith lowered "/models" then some .handleModelsCommand
  else if startsWith lowered "/model " then some (.setModel (trim (substringFrom original 7)))
  else if startsWith lowered "/clear" then some .clearConversation
  else if startsWith lowered "/status" then some .checkOllamaConnection
  else none

/-- A service whose chat endpoint answers with the given reply and whose other
endpoints cannot be reached. -/
def chatAnswers (text : String) : Remote :=
  ⟨.response true (.value ⟨.bool true, .str text⟩), .rejects, .rejects, .rejects, .rejects⟩

/-- Does the remote clear call report success?  It does when the answer has a
2xx status and a body that parses with a truthy `success`; a rejected
`fetch`, a status that is not 2xx (a transport failure in the specification's
taxonomy), a body that does not parse and a `success` that is not truthy are
all failures. -/
def Fetched.reportsSuccess : Fetched ClearFields → Bool
  | .response true (.value fields) => fields.success.truthy
  | _ => false

/-- The test `clearConversation` itself makes, lines 182-184: a body arrives
whose `success` is truthy.  The status of the response is not looked at. -/
def Fetched.bodySucceeds : Fetched ClearFields → Bool
  | .response _ (.value fields) => fields.success.truthy
  | _ => false

/-- A transport or parse error of the health check, in the specification's
taxonomy: `fetch` rejects, the status is not 2xx, or `json()` rejects. -/
def Fetched.transportOrParseError : Fetched HealthFields → Bool
  | .rejects => true
  | .response false _ => true
  | .response true .jsonRejects => true
  | .response true _ => false

/-- The errors the `catch` of `checkOllamaConnection` sees before any field is
read: `fetch` rejects, `json()` rejects, or the body is JSON `null`.  The
status of the response is not among them. -/
def Fetched.bodyUnreadable : Fetched HealthFields → Bool
  | .rejects => true
  | .response _ .jsonRejects => true
  | .response _ .null => true
  | .response _ (.value _) => false

/-- A service that answers the clear call with status 500 and the body
`{"success": true}`; the other endpoints cannot be reached. -/
def clearAnswers500 : Remote :=
  ⟨.rejects, .rejects, .rejects, .rejects, .response false (.value ⟨.bool true⟩)⟩

/-- A service that answers the health check with status 503 and the body
`{"ollama_connected": true, "current_model": "llama3"}`; the other endpoints
cannot be reached. -/
def healthAnswers503 : Remote :=
  ⟨.rejects, .response false (.value ⟨.bool true, .str "llama3"⟩), .rejects, .rejects,
    .rejects⟩

/-- The warning of the `catch` at line 122. -/
def backendWarning : Turn :=
  ⟨.bot, "⚠️ Backend server not running. Using fallback responses."⟩

/-- One of the three operations that touch `isOpen` or `messageCount`. -/
inductive Action where
  | addMessage (content : String) (sender : Sender)
  | toggleChat
  | closeChat
  deriving DecidableEq, Repr

/-- The method an action calls. -/
def Action.run : Action → Js Unit
  | .addMessage content sender => SimpleChatbot.addMessage content sender
  | .toggleChat => SimpleChatbot.toggleChat
  | .closeChat => SimpleChatbot.closeChat

/-- The state after a sequence of actions, carried out from left to right. -/
def runActions : List Action → State → State
  | [], s => s
  | a :: rest, s => runActions rest (a.run s).state

/-- An open panel shows no unread messages. -/
def OpenMeansRead (s : State) : Prop :=
  s.isOpen = true → s.messageCount = 0

/-- A host whose second run of the responder draws 3/4 where the first drew
0/1. -/
def twoDrawRuntime : Runtime :=
  { referenceRuntime ⟨0, 1, by decide⟩ "" "" with retryRandom := ⟨3, 4, by decide⟩ }

/-- A service whose chat endpoint answers 200 with a falsy `success` and a
`response` that does not convert to a string, as the body
`{"success": false, "response": {"toString": 1}}` does. -/
def unprintableFailure : Remote :=
  ⟨.response true (.value ⟨.bool false, .unprintable⟩), .rejects, .rejects, .rejects, .rejects⟩

/-! ## Computation rules -/

@[simp] theorem pure_run {α : Type} (a : α) (s : State) :
    (pure a : Js α) s = .normal a s := rfl

@[simp] theorem bind_run {α β : Type} (m : Js α) (f : α → Js β) (s : State) :
    (m >>= f) s = match m s with
      | .normal a s1 => f a s1
      | .abrupt e s1 => .abrupt e s1 := rfl

@[simp] theorem throwJs_run {α : Type} (e : String) (s : State) :
    (throwJs e : Js α) s = .abrupt e s := rfl

@[simp] theorem getState_run (s : State) : getState s = .normal s s := rfl

@[simp] theorem modifyState_run (f : State → State) (s : State) :
    modifyState f s = .normal () (f s) := rfl

@[simp] theorem tryCatchJs_run {α : Type} (body : Js α) (handler : String → Js α) (s : State) :
    tryCatchJs body handler s = match body s with
      | .normal a s1 => .normal a s1
      | .abrupt e s1 => handler e s1 := rfl

@[simp] theorem addMessage_run (content : String) (sender : Sender) (s : State) :
    addMessage content sender s = .normal ()
      (if s.isOpen then { s with chatMessages := s.chatMessages ++ [⟨sender, content⟩] }
       else { s with chatMessages := s.chatMessages ++ [⟨sender, content⟩],
                     messageCount := s.messageCount + 1 }) := by
  cases h : s.isOpen <;> simp [addMessage, h]

/-! ## The unread counter -/

theorem addMessages_run (turns : List Turn) (s : State) :
    addMessages turns s = .normal ()
      (if s.isOpen then { s with chatMessages := s.chatMessages ++ turns }
       else { s with chatMessages := s.chatMessages ++ turns,
                     messageCount := s.messageCount + turns.length }) := by
  induction turns generalizing s with
  | nil => cases s; simp [addMessages]
  | cons t ts ih =>
    cases h : s.isOpen <;>
      simp [addMessages, ih, h, Nat.add_assoc, Nat.add_comm 1]

/-- C6: `addMessage` raises `messageCount` by exactly one when `isOpen` is
false and leaves it alone when `isOpen` is true; `n` Turns appended in a row
while closed raise it by `n`; `toggleChat` flips `isOpen` and, when that opens
the panel, sets `messageCount` to 0. -/
theorem unread_counter (s : State) (content : String) (sender : Sender) (turns : List Turn) :
    (addMessage content sender s).state.messageCount
        = (if s.isOpen then s.messageCount else s.messageCount + 1) ∧
    (addMessage content sender s).state.isOpen = s.isOpen ∧
    (addMessages turns s).state.messageCount
        = (if s.isOpen then s.messageCount else s.messageCount + turns.length) ∧
    (toggleChat s).state.isOpen = (!s.isOpen) ∧
    (toggleChat s).state.messageCount = (if s.isOpen then s.messageCount else 0) := by
  cases h : s.isOpen <;>
    simp [addMessages_run, toggleChat, Completion.state, h]

/-- C6 on three bot Turns appended to a minimised panel: the counter reads 3,
and a `toggleChat` afterwards opens the panel and resets it to 0. -/
theorem unread_counter_witness :
    (addMessages [⟨.bot, "a"⟩, ⟨.bot, "b"⟩, ⟨.bot, "c"⟩]
      { State.initial with isOpen := false }).state.messageCount = 3 ∧
    (toggleChat (addMessages [⟨.bot, "a"⟩, ⟨.bot, "b"⟩, ⟨.bot, "c"⟩]
      { State.initial with isOpen := false }).state).state.isOpen = true ∧
    (toggleChat (addMessages [⟨.bot, "a"⟩, ⟨.bot, "b"⟩, ⟨.bot, "c"⟩]
      { State.initial with isOpen := false }).state).state.messageCount = 0 ∧
    (addMessage "a" .bot { State.initial with isOpen := false }).state.messageCount
      = (if ({ State.initial with isOpen := false } : State).isOpen then
          ({ State.initial with isOpen := false } : State).messageCount
        else ({ State.initial with isOpen := false } : State).messageCount + 1) :=
  ⟨by decide, by decide, by decide,
    (unread_counter { State.initial with isOpen := false } "a" .bot []).1⟩

/-! ## Blank input -/

theorem trimChars_blank (cs : List Char) (h : ∀ c ∈ cs, isJsWhitespace c = true) :
    trimChars cs = [] := by
  have h1 : cs.dropWhile isJsWhitespace = [] := List.dropWhile_eq_nil_iff.2 h
  simp [trimChars, h1]

/-- C2: when the input box holds only whitespace (or nothing), `sendMessage`
completes normally and leaves the whole widget as it was: no Turn in the log
or in `conversationHistory`, no request, `isTyping`, `messageCount` and
`isOpen` untouched. -/
theorem sendMessage_blank_is_noop (rt : Runtime) (net : Remote) (s : State)
    (h : ∀ c ∈ s.inputValue.data, isJsWhitespace c = true) :
    sendMessage rt net s = .normal () s := by
  have ht : trim s.inputValue = "" := by
    simp [trim, trimChars_blank _ h]
  simp [sendMessage, ht]

/-- C2, at the input of a tab, two spaces and a line break. -/
theorem sendMessage_blank_is_noop_witness :
    (∀ c ∈ ({ State.initial with inputValue := "\t  \n" }).inputValue.data,
        isJsWhitespace c = true) ∧
    sendMessage (referenceRuntime ⟨0, 1, by decide⟩ "" "")
        ⟨.rejects, .rejects, .rejects, .rejects, .rejects⟩
        { State.initial with inputValue := "\t  \n" }
      = .normal () { State.initial with inputValue := "\t  \n" } :=
  ⟨by decide, sendMessage_blank_is_noop _ _ _ (by decide)⟩

/-! ## The responder never throws and touches only the observation fields -/

theorem Framed.ite {P : List String → Prop} {c : Prop} [Decidable c] {a b : Js String}
    (ha : Framed P a) (hb : Framed P b) : Framed P (if c then a else b) := by
  by_cases h : c
  · simpa [h] using ha
  · simpa [h] using hb

theorem Framed.pure {P : List String → Prop} (h : P []) (reply : String) :
    Framed P (pure reply) :=
  ⟨reply, [], [], [], h, fun s => by simp⟩

theorem Framed.start {P : List String → Prop} (h : P []) (t : Task) :
    Framed P (do start t; Pure.pure "") :=
  ⟨"", [t.request], [], [t], h, fun s => by simp [SimpleChatbot.start]⟩

theorem mathBranch_run (rt : Runtime) (message : String) :
    ∃ reply calls, EvalArgs message calls ∧ ∀ s : State,
      mathBranch rt message s = .normal reply { s with evalCalls := s.evalCalls ++ calls } := by
  unfold mathBranch
  split
  · by_cases hc : (stripNonMath message != "" && mathClassOnly (stripNonMath message)) = true
    · have hcls : mathClassOnly (stripNonMath message) = true := by
        simp only [Bool.and_eq_true] at hc
        exact hc.2
      cases he : rt.eval (stripNonMath message) with
      | value rendered =>
        exact ⟨some ("The answer is: " ++ rendered), [stripNonMath message],
          Or.inr ⟨rfl, hcls⟩, fun s => by simp [hc, evalJs, he]⟩
      | throws =>
        exact ⟨some mathHelpMessage, [stripNonMath message],
          Or.inr ⟨rfl, hcls⟩, fun s => by simp [hc, evalJs, he]⟩
    · exact ⟨none, [], Or.inl rfl, fun s => by simp [hc]⟩
  · exact ⟨none, [], Or.inl rfl, fun s => by simp⟩

theorem Framed.math (rt : Runtime) (message : String) :
    Framed (EvalArgs message) (do
      match ← mathBranch rt message with
      | some reply => Pure.pure reply
      | none => Pure.pure (getRandomResponse rt defaultResponses)) := by
  obtain ⟨mreply, mcalls, hp, hm⟩ := mathBranch_run rt message
  cases mreply with
  | some r => exact ⟨r, [], mcalls, [], hp, fun s => by simp [hm]⟩
  | none =>
    exact ⟨getRandomResponse rt defaultResponses, [], mcalls, [], hp, fun s => by simp [hm]⟩

theorem generateResponse_framed (rt : Runtime) (userMessage : String) :
    Framed (EvalArgs (rt.toLowerCase userMessage)) (generateResponse rt userMessage) := by
  unfold generateResponse
  lift_lets
  intro message
  repeat first
    | exact Framed.pure (Or.inl rfl) _
    | exact Framed.start (Or.inl rfl) _
    | exact Framed.math _ _
    | refine Framed.ite ?_ ?_

/-! ## The fallback path of `sendMessage` -/

theorem startsWithChars_append (k rest : List Char) : startsWithChars (k ++ rest) k = true := by
  induction k with
  | nil => cases rest <;> simp [startsWithChars]
  | cons c cs ih => simp [startsWithChars, ih]

theorem isWarning_of_sign (text : String) : (Turn.mk .bot ("⚠️ " ++ text)).isWarning = true := by
  simp [Turn.isWarning, startsWith, String.data_append, startsWithChars]

theorem isWarning_cannot_connect :
    (Turn.mk .bot "⚠️ Cannot connect to Ollama. Using fallback responses.").isWarning = true := by
  decide

theorem afterError_fetch (rt : Runtime) :
    rt.afterError "TypeError: Failed to fetch" = rt := by
  simp +decide [Runtime.afterError, conversionError]

theorem afterError_status (rt : Runtime) : rt.afterError "HTTP error!" = rt := by
  simp +decide [Runtime.afterError, conversionError]

theorem afterError_json (rt : Runtime) :
    rt.afterError "SyntaxError: Unexpected token" = rt := by
  simp +decide [Runtime.afterError, conversionError]

theorem afterError_null (rt : Runtime) :
    rt.afterError "TypeError: Cannot read properties of null" = rt := by
  simp +decide [Runtime.afterError, conversionError]

theorem afterError_replace (rt : Runtime) :
    rt.afterError "TypeError: content.replace is not a function" = rt := by
  simp +decide [Runtime.afterError, conversionError]

theorem afterError_conversion (rt : Runtime) : rt.afterError conversionError = rt.retry := by
  simp [Runtime.afterError]

theorem sendMessage_failure_run (rt : Runtime) (net : Remote) (s : State)
    (hne : trim s.inputValue ≠ "") (hfail : net.chat.delivers = none)
    (hprint : net.chat.warningThrows = false)
    (reply : String) (reqs : List Request) (calls : List String) (tasks : List Task)
    (hg : ∀ s0 : State, generateResponse rt (trim s.inputValue) s0 = .normal reply
      { s0 with requests := s0.requests ++ reqs, evalCalls := s0.evalCalls ++ calls,
                pending := s0.pending ++ tasks }) :
    sendMessage rt net s = .normal ()
      { s with
        isTyping := false,
        messageCount := if s.isOpen then s.messageCount else s.messageCount + 3,
        conversationHistory := s.conversationHistory ++
          [⟨.user, trim s.inputValue⟩, ⟨.bot, reply⟩],
        chatMessages := s.chatMessages ++
          [⟨.user, trim s.inputValue⟩, ⟨.bot, reply⟩, ⟨.bot, fallbackWarning net.chat⟩],
        inputValue := "",
        requests := s.requests ++ .postChat (trim s.inputValue) :: reqs,
        evalCalls := s.evalCalls ++ calls,
        pending := s.pending ++ tasks } := by
  cases hchat : net.chat with
  | rejects =>
    cases ho : s.isOpen <;>
      simp [sendMessage, hne, sendToOllama, hchat, issue, showTypingIndicator,
          hideTypingIndicator, hg, ho, fallbackWarning, receiveJson, fieldsOf, template,
          afterError_fetch, afterError_status, afterError_json, afterError_null,
          afterError_replace, afterError_conversion]
  | response ok body =>
    cases ok with
    | false =>
      cases ho : s.isOpen <;>
        simp [sendMessage, hne, sendToOllama, hchat, issue, showTypingIndicator,
          hideTypingIndicator, hg, ho, fallbackWarning, receiveJson, fieldsOf, template,
          afterError_fetch, afterError_status, afterError_json, afterError_null,
          afterError_replace, afterError_conversion]
    | true =>
      cases body with
      | jsonRejects =>
        cases ho : s.isOpen <;>
          simp [sendMessage, hne, sendToOllama, hchat, issue, showTypingIndicator,
          hideTypingIndicator, hg, ho, fallbackWarning, receiveJson, fieldsOf, template,
          afterError_fetch, afterError_status, afterError_json, afterError_null,
          afterError_replace, afterError_conversion]
      | null =>
        cases ho : s.isOpen <;>
          simp [sendMessage, hne, sendToOllama, hchat, issue, showTypingIndicator,
          hideTypingIndicator, hg, ho, fallbackWarning, receiveJson, fieldsOf, template,
          afterError_fetch, afterError_status, afterError_json, afterError_null,
          afterError_replace, afterError_conversion]
      | value fields =>
        obtain ⟨success, response⟩ := fields
        cases ht : success.truthy with
        | false =>
          cases hr : response.render with
          | none => simp [hchat, Fetched.warningThrows, ht, hr] at hprint
          | some detail =>
            cases ho : s.isOpen <;>
              simp [sendMessage, hne, sendToOllama, hchat, issue, showTypingIndicator,
          hideTypingIndicator, hg, ho, fallbackWarning, receiveJson, fieldsOf, template,
          afterError_fetch, afterError_status, afterError_json, afterError_null,
          afterError_replace, afterError_conversion, ht, hr]
        | true =>
          cases response with
          | str text => simp [hchat, Fetched.delivers, ht] at hfail
          | _ =>
            cases ho : s.isOpen <;>
              simp [sendMessage, hne, sendToOllama, hchat, issue, showTypingIndicator,
          hideTypingIndicator, hg, ho, fallbackWarning, receiveJson, fieldsOf, template,
          afterError_fetch, afterError_status, afterError_json, afterError_null,
          afterError_replace, afterError_conversion, ht]

theorem sendMessage_twice_run (rt : Runtime) (net : Remote) (s : State)
    (hne : trim s.inputValue ≠ "") (hthrows : net.chat.warningThrows = true)
    (reply1 reply2 : String) (reqs1 reqs2 : List Request) (calls1 calls2 : List String)
    (tasks1 tasks2 : List Task)
    (hg : ∀ s0 : State, generateResponse rt (trim s.inputValue) s0 = .normal reply1
      { s0 with requests := s0.requests ++ reqs1, evalCalls := s0.evalCalls ++ calls1,
                pending := s0.pending ++ tasks1 })
    (hg2 : ∀ s0 : State, generateResponse rt.retry (trim s.inputValue) s0 = .normal reply2
      { s0 with requests := s0.requests ++ reqs2, evalCalls := s0.evalCalls ++ calls2,
                pending := s0.pending ++ tasks2 }) :
    sendMessage rt net s = .normal ()
      { s with
        isTyping := false,
        messageCount := if s.isOpen then s.messageCount else s.messageCount + 4,
        conversationHistory := s.conversationHistory ++
          [⟨.user, trim s.inputValue⟩, ⟨.bot, reply1⟩, ⟨.bot, reply2⟩],
        chatMessages := s.chatMessages ++
          [⟨.user, trim s.inputValue⟩, ⟨.bot, reply1⟩, ⟨.bot, reply2⟩,
           ⟨.bot, "⚠️ Cannot connect to Ollama. Using fallback responses."⟩],
        inputValue := "",
        requests := s.requests ++ .postChat (trim s.inputValue) :: (reqs1 ++ reqs2),
        evalCalls := s.evalCalls ++ (calls1 ++ calls2),
        pending := s.pending ++ (tasks1 ++ tasks2) } := by
  cases hchat : net.chat with
  | rejects => simp [hchat, Fetched.warningThrows] at hthrows
  | response ok body =>
    cases ok with
    | false => simp [hchat, Fetched.warningThrows] at hthrows
    | true =>
      cases body with
      | jsonRejects => simp [hchat, Fetched.warningThrows] at hthrows
      | null => simp [hchat, Fetched.warningThrows] at hthrows
      | value fields =>
        obtain ⟨success, response⟩ := fields
        simp only [hchat, Fetched.warningThrows, Bool.and_eq_true, Bool.not_eq_true',
          Option.isNone_iff_eq_none] at hthrows
        obtain ⟨ht, hr⟩ := hthrows
        cases ho : s.isOpen <;>
          simp [sendMessage, hne, sendToOllama, hchat, issue, showTypingIndicator,
          hideTypingIndicator, hg, ho, fallbackWarning, receiveJson, fieldsOf, template,
          afterError_fetch, afterError_status, afterError_json, afterError_null,
          afterError_replace, afterError_conversion, hg2, ht, hr]

theorem isWarning_fallbackWarning (chat : Fetched ChatFields) :
    (Turn.mk .bot (fallbackWarning chat)).isWarning = true := by
  unfold fallbackWarning
  split
  · split
    · exact isWarning_cannot_connect
    · split
      · exact isWarning_of_sign _
      · exact isWarning_cannot_connect
  · exact isWarning_cannot_connect

theorem delivers_none_of_warningThrows (chat : Fetched ChatFields)
    (h : chat.warningThrows = true) : chat.delivers = none := by
  unfold Fetched.warningThrows at h
  split at h
  · rename_i fields
    obtain ⟨success, response⟩ := fields
    simp only [Bool.and_eq_true, Bool.not_eq_true'] at h
    cases response <;> simp [Fetched.delivers, h.1]
  · simp at h

/-- The single fallback: when the input is not blank, the remote send does not
deliver a reply (`fetch` rejects, the status is not 2xx, the body does not
parse or is `null`, `success` is not truthy, the reply is not a string) and
the warning text can be built, `sendMessage` completes normally; the log
grows by the user Turn, then a bot Turn whose text is the reply
`generateResponse` returns for the same trimmed input (from any state, with
the same host), then a warning Turn; `conversationHistory` grows by the user
Turn and that reply. -/
theorem sendMessage_printable_failure_falls_back (rt : Runtime) (net : Remote) (s : State)
    (hne : trim s.inputValue ≠ "") (hfail : net.chat.delivers = none)
    (hprint : net.chat.warningThrows = false) :
    ∃ reply warning,
      (∀ s0, ∃ s1, generateResponse rt (trim s.inputValue) s0 = .normal reply s1) ∧
      (sendMessage rt net s).threw = false ∧
      (sendMessage rt net s).state.chatMessages = s.chatMessages ++
        [⟨.user, trim s.inputValue⟩, ⟨.bot, reply⟩, warning] ∧
      warning.isWarning = true ∧
      (sendMessage rt net s).state.conversationHistory = s.conversationHistory ++
        [⟨.user, trim s.inputValue⟩, ⟨.bot, reply⟩] ∧
      (sendMessage rt net s).state.isTyping = false := by
  obtain ⟨reply, reqs, calls, tasks, -, hg⟩ := generateResponse_framed rt (trim s.inputValue)
  refine ⟨reply, ⟨.bot, fallbackWarning net.chat⟩, fun s0 => ⟨_, hg s0⟩, ?_⟩
  rw [sendMessage_failure_run rt net s hne hfail hprint reply reqs calls tasks hg]
  exact ⟨rfl, rfl, isWarning_fallbackWarning _, rfl, rfl⟩

/-- The single fallback at the input "  hi, bye " with the service unreachable
and the draw 0/1: the log is the trimmed text, the first greeting, the
warning. -/
theorem sendMessage_printable_failure_falls_back_witness :
    (sendMessage (referenceRuntime ⟨0, 1, by decide⟩ "" "") unreachable exampleState).state.chatMessages
      = [⟨.user, "hi, bye"⟩, ⟨.bot, "Hello! How can I help you today?"⟩,
         ⟨.bot, "⚠️ Cannot connect to Ollama. Using fallback responses."⟩] ∧
    ∃ reply warning,
      (∀ s0, ∃ s1, generateResponse (referenceRuntime ⟨0, 1, by decide⟩ "" "")
        (trim exampleState.inputValue) s0 = .normal reply s1) ∧
      (sendMessage (referenceRuntime ⟨0, 1, by decide⟩ "" "") unreachable exampleState).threw
        = false ∧
      (sendMessage (referenceRuntime ⟨0, 1, by decide⟩ "" "") unreachable
          exampleState).state.chatMessages = exampleState.chatMessages ++
        [⟨.user, trim exampleState.inputValue⟩, ⟨.bot, reply⟩, warning] ∧
      warning.isWarning = true ∧
      (sendMessage (referenceRuntime ⟨0, 1, by decide⟩ "" "") unreachable
          exampleState).state.conversationHistory = exampleState.conversationHistory ++
        [⟨.user, trim exampleState.inputValue⟩, ⟨.bot, reply⟩] ∧
      (sendMessage (referenceRuntime ⟨0, 1, by decide⟩ "" "") unreachable
          exampleState).state.isTyping = false :=
  ⟨by decide,
    sendMessage_printable_failure_falls_back _ _ _ (by decide) (by decide) (by decide)⟩

/-- C1, the failing input: when the input is not blank and the service answers
200 with a falsy `success` and a `response` that does not convert to a string,
the remote send has reported failure, yet the log grows by the user Turn and
then by two bot replies, the responder's reply for the trimmed input and its
reply on a second run, before the one warning; `conversationHistory` grows by
the user Turn and both replies.  The template literal of line 84 throws after
lines 79-81 have appended the first reply, and the `catch` of lines 86-96
runs the fallback again. -/
theorem sendMessage_unprintable_warning_falls_back_twice (rt : Runtime) (net : Remote)
    (s : State) (hne : trim s.inputValue ≠ "") (hthrows : net.chat.warningThrows = true) :
    net.chat.delivers = none ∧
    ∃ reply1 reply2,
      (∀ s0, ∃ s1, generateResponse rt (trim s.inputValue) s0 = .normal reply1 s1) ∧
      (∀ s0, ∃ s1, generateResponse rt.retry (trim s.inputValue) s0 = .normal reply2 s1) ∧
      (sendMessage rt net s).threw = false ∧
      (sendMessage rt net s).state.chatMessages = s.chatMessages ++
        [⟨.user, trim s.inputValue⟩, ⟨.bot, reply1⟩, ⟨.bot, reply2⟩,
         ⟨.bot, "⚠️ Cannot connect to Ollama. Using fallback responses."⟩] ∧
      (sendMessage rt net s).state.conversationHistory = s.conversationHistory ++
        [⟨.user, trim s.inputValue⟩, ⟨.bot, reply1⟩, ⟨.bot, reply2⟩] := by
  obtain ⟨reply1, reqs1, calls1, tasks1, -, hg⟩ :=
    generateResponse_framed rt (trim s.inputValue)
  obtain ⟨reply2, reqs2, calls2, tasks2, -, hg2⟩ :=
    generateResponse_framed rt.retry (trim s.inputValue)
  refine ⟨delivers_none_of_warningThrows _ hthrows, reply1, reply2,
    fun s0 => ⟨_, hg s0⟩, fun s0 => ⟨_, hg2 s0⟩, ?_⟩
  rw [sendMessage_twice_run rt net s hne hthrows reply1 reply2 reqs1 reqs2 calls1 calls2
    tasks1 tasks2 hg hg2]
  exact ⟨rfl, rfl, rfl⟩

/-- C1 at the input "  hi, bye " with the body
`{"success": false, "response": {"toString": 1}}`, the first draw 0/1 and the
second 3/4: the log is the trimmed text, the first greeting, the fourth
greeting, the warning. -/
theorem sendMessage_unprintable_warning_falls_back_twice_witness :
    (sendMessage twoDrawRuntime unprintableFailure exampleState).state.chatMessages
      = [⟨.user, "hi, bye"⟩, ⟨.bot, "Hello! How can I help you today?"⟩,
         ⟨.bot, "Hello! I'm here to help. What do you need?"⟩,
         ⟨.bot, "⚠️ Cannot connect to Ollama. Using fallback responses."⟩] ∧
    (sendMessage twoDrawRuntime unprintableFailure exampleState).state.conversationHistory
      = [⟨.user, "hi, bye"⟩, ⟨.bot, "Hello! How can I help you today?"⟩,
         ⟨.bot, "Hello! I'm here to help. What do you need?"⟩] ∧
    (unprintableFailure.chat.delivers = none ∧
    ∃ reply1 reply2,
      (∀ s0, ∃ s1, generateResponse twoDrawRuntime (trim exampleState.inputValue) s0
        = .normal reply1 s1) ∧
      (∀ s0, ∃ s1, generateResponse twoDrawRuntime.retry (trim exampleState.inputValue) s0
        = .normal reply2 s1) ∧
      (sendMessage twoDrawRuntime unprintableFailure exampleState).threw = false ∧
      (sendMessage twoDrawRuntime unprintableFailure exampleState).state.chatMessages
        = exampleState.chatMessages ++
        [⟨.user, trim exampleState.inputValue⟩, ⟨.bot, reply1⟩, ⟨.bot, reply2⟩,
         ⟨.bot, "⚠️ Cannot connect to Ollama. Using fallback responses."⟩] ∧
      (sendMessage twoDrawRuntime unprintableFailure exampleState).state.conversationHistory
        = exampleState.conversationHistory ++
        [⟨.user, trim exampleState.inputValue⟩, ⟨.bot, reply1⟩, ⟨.bot, reply2⟩]) :=
  ⟨by decide, by decide,
    sendMessage_unprintable_warning_falls_back_twice _ _ _ (by decide) (by decide)⟩

/-! ## Keyword precedence -/

theorem getRandomResponse_mem (rt : Runtime) (responses : List String) (h : responses ≠ []) :
    getRandomResponse rt responses ∈ responses := by
  unfold getRandomResponse
  have hlen : 0 < responses.length := List.length_pos.2 h
  have hden : 0 < rt.random.den := Nat.lt_of_le_of_lt (Nat.zero_le _) rt.random.lt
  have hidx : rt.random.num * responses.length / rt.random.den < responses.length := by
    rw [Nat.div_lt_iff_lt_mul hden]
    rw [Nat.mul_comm]
    exact Nat.mul_lt_mul_of_pos_left rt.random.lt hlen
  rw [List.getD_eq_getElem _ _ hidx]
  exact List.getElem_mem _

theorem getRandomResponse_single (rt : Runtime) (reply : String) :
    getRandomResponse rt [reply] = reply := by
  have h := getRandomResponse_mem rt [reply] (by simp)
  simpa using h

theorem generateResponse_category (rt : Runtime) (userMessage : String) (c : Category)
    (hcmd : isCommand (rt.toLowerCase userMessage) = false)
    (hc : firstCategory (rt.toLowerCase userMessage) = some c) (s : State) :
    generateResponse rt userMessage s
      = .normal (getRandomResponse rt (c.candidates rt)) s := by
  simp only [isCommand, Bool.or_eq_false_iff] at hcmd
  obtain ⟨⟨⟨h01, h02⟩, h03⟩, h04⟩ := hcmd
  unfold firstCategory at hc
  simp only [Category.order, List.find?, Category.keywords] at hc
  unfold generateResponse
  simp only [h01, h02, h03, h04, Bool.false_eq_true, if_false]
  cases h_greeting : containsAny (rt.toLowerCase userMessage) (Category.keywords .greeting)
  case true =>
    simp only [Category.keywords] at h_greeting
    simp only [h_greeting, Option.some.injEq] at hc
    subst hc
    simp only [h_greeting, if_true, Category.candidates, getRandomResponse_single, pure_run]
  simp only [Category.keywords] at h_greeting
  simp only [h_greeting] at hc
  simp only [h_greeting, Bool.false_eq_true, if_false]
  cases h_help : containsAny (rt.toLowerCase userMessage) (Category.keywords .help)
  case true =>
    simp only [Category.keywords] at h_help
    simp only [h_help, Option.some.injEq] at hc
    subst hc
    simp only [h_help, if_true, Category.candidates, getRandomResponse_single, pure_run]
  simp only [Category.keywords] at h_help
  simp only [h_help] at hc
  simp only [h_help, Bool.false_eq_true, if_false]
  cases h_capability : containsAny (rt.toLowerCase userMessage) (Category.keywords .capability)
  case true =>
    simp only [Category.keywords] at h_capability
    simp only [h_capability, Option.some.injEq] at hc
    subst hc
    simp only [h_capability, if_true, Category.candidates, getRandomResponse_single, pure_run]
  simp only [Category.keywords] at h_capability
  simp only [h_capability] at hc
  simp only [h_capability, Bool.false_eq_true, if_false]
  cases h_weather : containsAny (rt.toLowerCase userMessage) (Category.keywords .weather)
  case true =>
    simp only [Category.keywords] at h_weather
    simp only [h_weather, Option.some.injEq] at hc
    subst hc
    simp only [h_weather, if_true, Category.candidates, getRandomResponse_single, pure_run]
  simp only [Category.keywords] at h_weather
  simp only [h_weather] at hc
  simp only [h_weather, Bool.false_eq_true, if_false]
  cases h_timeDate : containsAny (rt.toLowerCase userMessage) (Category.keywords .timeDate)
  case true =>
    simp only [Category.keywords] at h_timeDate
    simp only [h_timeDate, Option.some.injEq] at hc
    subst hc
    simp only [h_timeDate, if_true, Category.candidates, getRandomResponse_single, pure_run]
  simp only [Category.keywords] at h_timeDate
  simp only [h_timeDate] at hc
  simp only [h_timeDate, Bool.false_eq_true, if_false]
  cases h_thanks : containsAny (rt.toLowerCase userMessage) (Category.keywords .thanks)
  case true =>
    simp only [Category.keywords] at h_thanks
    simp only [h_thanks, Option.some.injEq] at hc
    subst hc
    simp only [h_thanks, if_true, Category.candidates, getRandomResponse_single, pure_run]
  simp only [Category.keywords] at h_thanks
  simp only [h_thanks] at hc
  simp only [h_thanks, Bool.false_eq_true, if_false]
  cases h_goodbye : containsAny (rt.toLowerCase userMessage) (Category.keywords .goodbye)
  case true =>
    simp only [Category.keywords] at h_goodbye
    simp only [h_goodbye, Option.some.injEq] at hc
    subst hc
    simp only [h_goodbye, if_true, Category.candidates, getRandomResponse_single, pure_run]
  simp only [Category.keywords] at h_goodbye
  simp only [h_goodbye] at hc
  simp only [h_goodbye, Bool.false_eq_true, if_false]
  cases h_howAreYou : containsAny (rt.toLowerCase userMessage) (Category.keywords .howAreYou)
  case true =>
    simp only [Category.keywords] at h_howAreYou
    simp only [h_howAreYou, Option.some.injEq] at hc
    subst hc
    simp only [h_howAreYou, if_true, Category.candidates, getRandomResponse_single, pure_run]
  simp only [Category.keywords] at h_howAreYou
  simp only [h_howAreYou] at hc
  simp only [h_howAreYou, Bool.false_eq_true, if_false]
  cases h_identity : containsAny (rt.toLowerCase userMessage) (Category.keywords .identity)
  case true =>
    simp only [Category.keywords] at h_identity
    simp only [h_identity, Option.some.injEq] at hc
    subst hc
    simp only [h_identity, if_true, Category.candidates, getRandomResponse_single, pure_run]
  simp only [Category.keywords] at h_identity
  simp only [h_identity] at hc
  simp only [h_identity, Bool.false_eq_true, if_false]
  cases h_age : containsAny (rt.toLowerCase userMessage) (Category.keywords .age)
  case true =>
    simp only [Category.keywords] at h_age
    simp only [h_age, Option.some.injEq] at hc
    subst hc
    simp only [h_age, if_true, Category.candidates, getRandomResponse_single, pure_run]
  simp only [Category.keywords] at h_age
  simp only [h_age] at hc
  simp only [h_age, Bool.false_eq_true, if_false]
  cases h_joke : containsAny (rt.toLowerCase userMessage) (Category.keywords .joke)
  case true =>
    simp only [Category.keywords] at h_joke
    simp only [h_joke, Option.some.injEq] at hc
    subst hc
    simp only [h_joke, if_true, Category.candidates, getRandomResponse_single, pure_run]
  simp only [Category.keywords] at h_joke
  simp only [h_joke] at hc
  simp only [h_joke, Bool.false_eq_true, if_false]
  cases hc

theorem candidates_ne_nil (rt : Runtime) (c : Category) : c.candidates rt ≠ [] := by
  cases c <;> simp [Category.candidates]

theorem greeting_not_goodbye (rt : Runtime) :
    ∀ reply ∈ Category.candidates rt .greeting, reply ∉ Category.candidates rt .goodbye := by
  simp only [Category.candidates]
  decide

/-- C3: for a message that is not a command, `generateResponse` answers from
the first category, in the order greeting, help, capability, weather,
time/date, thanks, goodbye, how-are-you, identity, age, joke, one of whose
keywords occurs in the lower-cased message: the reply is the random pick among
that category's candidates, hence one of them, and the widget is not touched.
In particular a message with a greeting keyword gets one of the greeting
replies and none of the goodbye replies, whatever else it contains. -/
theorem keyword_precedence (rt : Runtime) (userMessage : String) (s : State)
    (hcmd : isCommand (rt.toLowerCase userMessage) = false) :
    (∀ c, firstCategory (rt.toLowerCase userMessage) = some c →
      generateResponse rt userMessage s
          = .normal (getRandomResponse rt (c.candidates rt)) s ∧
        getRandomResponse rt (c.candidates rt) ∈ c.candidates rt) ∧
    (containsAny (rt.toLowerCase userMessage) (Category.keywords .greeting) = true →
      ∃ reply ∈ Category.candidates rt .greeting,
        generateResponse rt userMessage s = .normal reply s ∧
        reply ∉ Category.candidates rt .goodbye) := by
  refine ⟨fun c hc => ⟨generateResponse_category rt userMessage c hcmd hc s,
    getRandomResponse_mem rt _ (candidates_ne_nil rt c)⟩, fun hg => ?_⟩
  have hfirst : firstCategory (rt.toLowerCase userMessage) = some .greeting := by
    simp [firstCategory, Category.order, List.find?, hg]
  have hmem := getRandomResponse_mem rt _ (candidates_ne_nil rt .greeting)
  exact ⟨_, hmem, generateResponse_category rt userMessage .greeting hcmd hfirst s,
    greeting_not_goodbye rt _ hmem⟩

/-- C3 at the message "hi, bye", with the draw 3/4: the reply is the fourth
greeting. -/
theorem keyword_precedence_witness :
    isCommand ((referenceRuntime ⟨3, 4, by decide⟩ "" "").toLowerCase "hi, bye") = false ∧
    generateResponse (referenceRuntime ⟨3, 4, by decide⟩ "" "") "hi, bye" State.initial
      = .normal "Hello! I'm here to help. What do you need?" State.initial ∧
    ((∀ c, firstCategory ((referenceRuntime ⟨3, 4, by decide⟩ "" "").toLowerCase "hi, bye")
          = some c →
      generateResponse (referenceRuntime ⟨3, 4, by decide⟩ "" "") "hi, bye" State.initial
          = .normal (getRandomResponse (referenceRuntime ⟨3, 4, by decide⟩ "" "")
              (c.candidates (referenceRuntime ⟨3, 4, by decide⟩ "" ""))) State.initial ∧
        getRandomResponse (referenceRuntime ⟨3, 4, by decide⟩ "" "")
            (c.candidates (referenceRuntime ⟨3, 4, by decide⟩ "" ""))
          ∈ c.candidates (referenceRuntime ⟨3, 4, by decide⟩ "" "")) ∧
    (containsAny ((referenceRuntime ⟨3, 4, by decide⟩ "" "").toLowerCase "hi, bye")
        (Category.keywords .greeting) = true →
      ∃ reply ∈ Category.candidates (referenceRuntime ⟨3, 4, by decide⟩ "" "") .greeting,
        generateResponse (referenceRuntime ⟨3, 4, by decide⟩ "" "") "hi, bye" State.initial
          = .normal reply State.initial ∧
        reply ∉ Category.candidates (referenceRuntime ⟨3, 4, by decide⟩ "" "") .goodbye)) :=
  ⟨by decide, by decide, keyword_precedence _ _ _ (by decide)⟩

/-! ## Arithmetic -/

theorem referenceRuntime_evalAgrees (random : Unit01) (time date : String) :
    (referenceRuntime random time date).EvalAgrees := by
  intro code outcome h
  simp [referenceRuntime, h]

/-- C4, the failing input: for the message "a = b" the residue is two blanks,
which is not empty and passes the test of line 388; `eval` of a script of
blanks returns `undefined` without throwing, so the reply is
"The answer is: undefined" and not the math-help message. -/
theorem blank_residue_answers_undefined (rt : Runtime) (s : State)
    (hlow : rt.toLowerCase "a = b" = "a = b") (heval : rt.EvalAgrees) :
    stripNonMath (rt.toLowerCase "a = b") = "  " ∧
    generateResponse rt "a = b" s
      = .normal "The answer is: undefined" { s with evalCalls := s.evalCalls ++ ["  "] } ∧
    "The answer is: undefined" ≠ mathHelpMessage := by
  have hstrip : stripNonMath "a = b" = "  " := by decide
  have he : rt.eval "  " = .value "undefined" := heval _ _ (by decide)
  refine ⟨by rw [hlow, hstrip], ?_, by decide⟩
  simp +decide [generateResponse, mathBranch, hlow, hstrip, he, evalJs]

/-- C4 at the reference host. -/
theorem blank_residue_answers_undefined_witness :
    (referenceRuntime ⟨0, 1, by decide⟩ "" "").toLowerCase "a = b" = "a = b" ∧
    stripNonMath ((referenceRuntime ⟨0, 1, by decide⟩ "" "").toLowerCase "a = b") = "  " ∧
    generateResponse (referenceRuntime ⟨0, 1, by decide⟩ "" "") "a = b" State.initial
      = .normal "The answer is: undefined"
          { State.initial with evalCalls := State.initial.evalCalls ++ ["  "] } ∧
    "The answer is: undefined" ≠ mathHelpMessage :=
  ⟨by decide, blank_residue_answers_undefined _ _ (by decide) (referenceRuntime_evalAgrees _ _ _)⟩

/-- The examples of the specification on the reference host: "what is 2+2"
gives 4, "12*(3+1)" gives 48, "2++" gives the math-help message. -/
theorem arithmetic_examples :
    generateResponse (referenceRuntime ⟨0, 1, by decide⟩ "" "") "what is 2+2" State.initial
      = .normal "The answer is: 4" { State.initial with evalCalls := ["  2+2"] } ∧
    generateResponse (referenceRuntime ⟨0, 1, by decide⟩ "" "") "12*(3+1)" State.initial
      = .normal "The answer is: 48" { State.initial with evalCalls := ["12*(3+1)"] } ∧
    generateResponse (referenceRuntime ⟨0, 1, by decide⟩ "" "") "2++" State.initial
      = .normal mathHelpMessage { State.initial with evalCalls := ["2++"] } := by
  refine ⟨?_, ?_, ?_⟩ <;> decide

/-! ## What reaches `eval` -/

theorem stripNonMath_chars (message : String) :
    ∀ c ∈ (stripNonMath message).data, isMathChar c = true := by
  intro c hc
  simp only [stripNonMath, List.mem_filter] at hc
  exact hc.2

theorem generateResponse_no_category (rt : Runtime) (userMessage : String)
    (hcmd : isCommand (rt.toLowerCase userMessage) = false)
    (hnone : firstCategory (rt.toLowerCase userMessage) = none) (s : State) :
    generateResponse rt userMessage s
      = (do
          match ← mathBranch rt (rt.toLowerCase userMessage) with
          | some reply => pure reply
          | none => pure (getRandomResponse rt defaultResponses) : Js String) s := by
  simp only [isCommand, Bool.or_eq_false_iff] at hcmd
  obtain ⟨⟨⟨h01, h02⟩, h03⟩, h04⟩ := hcmd
  unfold firstCategory at hnone
  simp only [Category.order, List.find?, Category.keywords] at hnone
  unfold generateResponse
  simp only [h01, h02, h03, h04, Bool.false_eq_true, if_false]
  cases h_greeting : containsAny (rt.toLowerCase userMessage) (Category.keywords .greeting)
  case true =>
    simp only [Category.keywords] at h_greeting
    simp only [h_greeting] at hnone
    cases hnone
  simp only [Category.keywords] at h_greeting
  simp only [h_greeting] at hnone
  simp only [h_greeting, Bool.false_eq_true, if_false]
  cases h_help : containsAny (rt.toLowerCase userMessage) (Category.keywords .help)
  case true =>
    simp only [Category.keywords] at h_help
    simp only [h_help] at hnone
    cases hnone
  simp only [Category.keywords] at h_help
  simp only [h_help] at hnone
  simp only [h_help, Bool.false_eq_true, if_false]
  cases h_capability : containsAny (rt.toLowerCase userMessage) (Category.keywords .capability)
  case true =>
    simp only [Category.keywords] at h_capability
    simp only [h_capability] at hnone
    cases hnone
  simp only [Category.keywords] at h_capability
  simp only [h_capability] at hnone
  simp only [h_capability, Bool.false_eq_true, if_false]
  cases h_weather : containsAny (rt.toLowerCase userMessage) (Category.keywords .weather)
  case true =>
    simp only [Category.keywords] at h_weather
    simp only [h_weather] at hnone
    cases hnone
  simp only [Category.keywords] at h_weather
  simp only [h_weather] at hnone
  simp only [h_weather, Bool.false_eq_true, if_false]
  cases h_timeDate : containsAny (rt.toLowerCase userMessage) (Category.keywords .timeDate)
  case true =>
    simp only [Category.keywords] at h_timeDate
    simp only [h_timeDate] at hnone
    cases hnone
  simp only [Category.keywords] at h_timeDate
  simp only [h_timeDate] at hnone
  simp only [h_timeDate, Bool.false_eq_true, if_false]
  cases h_thanks : containsAny (rt.toLowerCase userMessage) (Category.keywords .thanks)
  case true =>
    simp only [Category.keywords] at h_thanks
    simp only [h_thanks] at hnone
    cases hnone
  simp only [Category.keywords] at h_thanks
  simp only [h_thanks] at hnone
  simp only [h_thanks, Bool.false_eq_true, if_false]
  cases h_goodbye : containsAny (rt.toLowerCase userMessage) (Category.keywords .goodbye)
  case true =>
    simp only [Category.keywords] at h_goodbye
    simp only [h_goodbye] at hnone
    cases hnone
  simp only [Category.keywords] at h_goodbye
  simp only [h_goodbye] at hnone
  simp only [h_goodbye, Bool.false_eq_true, if_false]
  cases h_howAreYou : containsAny (rt.toLowerCase userMessage) (Category.keywords .howAreYou)
  case true =>
    simp only [Category.keywords] at h_howAreYou
    simp only [h_howAreYou] at hnone
    cases hnone
  simp only [Category.keywords] at h_howAreYou
  simp only [h_howAreYou] at hnone
  simp only [h_howAreYou, Bool.false_eq_true, if_false]
  cases h_identity : containsAny (rt.toLowerCase userMessage) (Category.keywords .identity)
  case true =>
    simp only [Category.keywords] at h_identity
    simp only [h_identity] at hnone
    cases hnone
  simp only [Category.keywords] at h_identity
  simp only [h_identity] at hnone
  simp only [h_identity, Bool.false_eq_true, if_false]
  cases h_age : containsAny (rt.toLowerCase userMessage) (Category.keywords .age)
  case true =>
    simp only [Category.keywords] at h_age
    simp only [h_age] at hnone
    cases hnone
  simp only [Category.keywords] at h_age
  simp only [h_age] at hnone
  simp only [h_age, Bool.false_eq_true, if_false]
  cases h_joke : containsAny (rt.toLowerCase userMessage) (Category.keywords .joke)
  case true =>
    simp only [Category.keywords] at h_joke
    simp only [h_joke] at hnone
    cases hnone
  simp only [Category.keywords] at h_joke
  simp only [h_joke] at hnone
  simp only [h_joke, Bool.false_eq_true, if_false]

/-- The two outcomes of the arithmetic branch: for a message that is no
command, matches no keyword category, contains an operator character and
leaves a residue that is not empty, the reply is "The answer is: " followed by
the value when `eval` returns one, and the math-help message when `eval`
throws.  `generateResponse` itself does not throw in either case. -/
theorem arithmetic_reply (rt : Runtime) (userMessage : String) (s : State)
    (hcmd : isCommand (rt.toLowerCase userMessage) = false)
    (hnone : firstCategory (rt.toLowerCase userMessage) = none)
    (hop : hasOperator (rt.toLowerCase userMessage) = true)
    (hres : stripNonMath (rt.toLowerCase userMessage) ≠ "") :
    generateResponse rt userMessage s
      = .normal
          (match rt.eval (stripNonMath (rt.toLowerCase userMessage)) with
            | .value rendered => "The answer is: " ++ rendered
            | .throws => mathHelpMessage)
          { s with evalCalls := s.evalCalls ++ [stripNonMath (rt.toLowerCase userMessage)] } := by
  rw [generateResponse_no_category rt userMessage hcmd hnone s]
  have hcls : mathClassOnly (stripNonMath (rt.toLowerCase userMessage)) = true := by
    have hd : (stripNonMath (rt.toLowerCase userMessage)).data ≠ [] := fun h =>
      hres (String.ext h)
    simp only [mathClassOnly, Bool.and_eq_true, Bool.not_eq_true', List.all_eq_true]
    exact ⟨by simpa using hd, stripNonMath_chars _⟩
  unfold hasOperator at hop
  cases he : rt.eval (stripNonMath (rt.toLowerCase userMessage)) <;>
    simp [mathBranch, hop, hres, hcls, evalJs, he]

/-- C10 as stated fails: the characters that pass the filter also spell
things that are neither numeric literals, nor the four operators, nor
parentheses.  For the message "2**3" the string handed to `eval` is "2**3",
whose tokens are 2, the exponentiation operator, 3.  For the message "/2/"
the string handed to `eval` is a regular expression literal; `eval` returns a
`RegExp` object and the reply is "The answer is: /2/". -/
theorem eval_is_not_restricted_to_arithmetic :
    (generateResponse (referenceRuntime ⟨0, 1, by decide⟩ "" "") "2**3"
        State.initial).state.evalCalls = ["2**3"] ∧
    scan .idle "2**3".data = some [.num 2, .power, .num 3] ∧
    Tok.power.isArithmetic = false ∧
    jsEvalFragment "/2/" = some (.value "/2/") ∧
    generateResponse (referenceRuntime ⟨0, 1, by decide⟩ "" "") "/2/" State.initial
      = .normal "The answer is: /2/" { State.initial with evalCalls := ["/2/"] } := by
  refine ⟨?_, ?_, ?_, ?_, ?_⟩ <;> decide

/-- C10, amended: every string `generateResponse` hands to `eval` is the
message with all characters outside the class removed, so it consists only of
digits, the characters `+ - * /`, parentheses, the dot and whitespace; and a
residue that is not empty always passes the second test of line 388. -/
theorem eval_receives_only_arithmetic_text (rt : Runtime) (userMessage : String) (s : State) :
    (∀ code ∈ (generateResponse rt userMessage s).state.evalCalls,
      code ∈ s.evalCalls ∨
      (code = stripNonMath (rt.toLowerCase userMessage) ∧
        ∀ c ∈ code.data,
          c.isDigit = true ∨ c = '+' ∨ c = '-' ∨ c = '*' ∨ c = '/' ∨ c = '(' ∨ c = ')' ∨
          c = '.' ∨ isJsWhitespace c = true)) ∧
    (∀ message, stripNonMath message ≠ "" → mathClassOnly (stripNonMath message) = true) := by
  constructor
  · obtain ⟨reply, reqs, calls, tasks, hp, hg⟩ := generateResponse_framed rt userMessage
    intro code hcode
    rw [hg s] at hcode
    simp only [Completion.state, List.mem_append] at hcode
    rcases hcode with h | h
    · exact Or.inl h
    · right
      rcases hp with hp | ⟨hp, -⟩
      · simp [hp] at h
      · rw [hp, List.mem_singleton] at h
        refine ⟨h, fun c hc => ?_⟩
        rw [h] at hc
        have := stripNonMath_chars _ c hc
        simpa [isMathChar, or_assoc] using this
  · intro message hne
    have hd : (stripNonMath message).data ≠ [] := by
      intro h
      apply hne
      exact String.ext h
    simp only [mathClassOnly, Bool.and_eq_true, Bool.not_eq_true', List.all_eq_true]
    exact ⟨by simpa using hd, stripNonMath_chars message⟩

/-- C10 at the message "what is 2+2": the one string handed to `eval` is
"  2+2". -/
theorem eval_receives_only_arithmetic_text_witness :
    (generateResponse (referenceRuntime ⟨0, 1, by decide⟩ "" "") "what is 2+2"
        State.initial).state.evalCalls = ["  2+2"] ∧
    ((∀ code ∈ (generateResponse (referenceRuntime ⟨0, 1, by decide⟩ "" "") "what is 2+2"
          State.initial).state.evalCalls,
      code ∈ State.initial.evalCalls ∨
      (code = stripNonMath ((referenceRuntime ⟨0, 1, by decide⟩ "" "").toLowerCase
          "what is 2+2") ∧
        ∀ c ∈ code.data,
          c.isDigit = true ∨ c = '+' ∨ c = '-' ∨ c = '*' ∨ c = '/' ∨ c = '(' ∨ c = ')' ∨
          c = '.' ∨ isJsWhitespace c = true)) ∧
    (∀ message, stripNonMath message ≠ "" → mathClassOnly (stripNonMath message) = true)) :=
  ⟨by decide, eval_receives_only_arithmetic_text _ _ _⟩

/-! ## Commands -/

theorem generateResponse_command (rt : Runtime) (userMessage : String) (t : Task)
    (ht : commandTask (rt.toLowerCase userMessage) userMessage = some t) (s : State) :
    generateResponse rt userMessage s = .normal ""
      { s with requests := s.requests ++ [t.request], pending := s.pending ++ [t] } := by
  unfold commandTask at ht
  unfold generateResponse
  cases h1 : startsWith (rt.toLowerCase userMessage) "/models"
  case true =>
    simp only [h1, if_true, Option.some.injEq] at ht
    subst ht
    simp [h1, start]
  simp only [h1, Bool.false_eq_true, if_false] at ht
  cases h2 : startsWith (rt.toLowerCase userMessage) "/model "
  case true =>
    simp only [h2, if_true, Option.some.injEq] at ht
    subst ht
    simp [h1, h2, start]
  simp only [h2, Bool.false_eq_true, if_false] at ht
  cases h3 : startsWith (rt.toLowerCase userMessage) "/clear"
  case true =>
    simp only [h3, if_true, Option.some.injEq] at ht
    subst ht
    simp [h1, h2, h3, start]
  simp only [h3, Bool.false_eq_true, if_false] at ht
  cases h4 : startsWith (rt.toLowerCase userMessage) "/status"
  case true =>
    simp only [h4, if_true, Option.some.injEq] at ht
    subst ht
    simp [h1, h2, h3, h4, start]
  simp [h4] at ht

theorem sendMessage_success_run (rt : Runtime) (net : Remote) (s : State) (text : String)
    (hne : trim s.inputValue ≠ "") (hdel : net.chat.delivers = some text) :
    sendMessage rt net s = .normal ()
      { s with
        isTyping := false,
        messageCount := if s.isOpen then s.messageCount else s.messageCount + 2,
        conversationHistory := s.conversationHistory ++
          [⟨.user, trim s.inputValue⟩, ⟨.bot, text⟩],
        chatMessages := s.chatMessages ++ [⟨.user, trim s.inputValue⟩, ⟨.bot, text⟩],
        inputValue := "",
        requests := s.requests ++ [.postChat (trim s.inputValue)] } := by
  cases hchat : net.chat with
  | rejects => simp [hchat, Fetched.delivers] at hdel
  | response ok body =>
    cases ok with
    | false => simp [hchat, Fetched.delivers] at hdel
    | true =>
      cases body with
      | jsonRejects => simp [hchat, Fetched.delivers] at hdel
      | null => simp [hchat, Fetched.delivers] at hdel
      | value fields =>
        obtain ⟨success, response⟩ := fields
        cases response with
        | str reply =>
          cases ht : success.truthy with
          | false => simp [hchat, Fetched.delivers, ht] at hdel
          | true =>
            simp only [hchat, Fetched.delivers, ht, if_true, Option.some.injEq] at hdel
            subst hdel
            cases ho : s.isOpen <;>
              simp [sendMessage, hne, sendToOllama, hchat, issue, showTypingIndicator,
                hideTypingIndicator, ho, receiveJson, fieldsOf, ht]
        | _ => simp [hchat, Fetched.delivers] at hdel

theorem model_command_ne_empty (name : String) : "/model " ++ name ≠ "" := by
  intro h
  have hd := congrArg String.data h
  simp [String.data_append] at hd

/-- C5, the divergence: whenever the remote send answers, an input of the form
"/model <name>" is posted to `/chat` as message text like any other input;
that is the only request, no call to `setModel` is started, and the service's
reply is shown as the answer. -/
theorem model_command_is_posted_to_chat (rt : Runtime) (net : Remote) (s : State)
    (name text : String) (hin : trim s.inputValue = "/model " ++ name)
    (hdel : net.chat.delivers = some text) :
    (sendMessage rt net s).state.requests = s.requests ++ [.postChat ("/model " ++ name)] ∧
    (sendMessage rt net s).state.pending = s.pending ∧
    (sendMessage rt net s).state.chatMessages = s.chatMessages ++
      [⟨.user, "/model " ++ name⟩, ⟨.bot, text⟩] := by
  have hne : trim s.inputValue ≠ "" := by
    rw [hin]
    exact model_command_ne_empty name
  rw [sendMessage_success_run rt net s text hne hdel, hin]
  exact ⟨rfl, rfl, rfl⟩

/-- C5 at the input "/model gpt-x" with a service that answers "Sure!". -/
theorem model_command_is_posted_to_chat_witness :
    trim ({ State.initial with inputValue := "/model gpt-x" }).inputValue
      = "/model " ++ "gpt-x" ∧
    (chatAnswers "Sure!").chat.delivers = some "Sure!" ∧
    ((sendMessage (referenceRuntime ⟨0, 1, by decide⟩ "" "") (chatAnswers "Sure!")
        { State.initial with inputValue := "/model gpt-x" }).state.requests
      = ({ State.initial with inputValue := "/model gpt-x" }).requests ++
        [.postChat ("/model " ++ "gpt-x")] ∧
    (sendMessage (referenceRuntime ⟨0, 1, by decide⟩ "" "") (chatAnswers "Sure!")
        { State.initial with inputValue := "/model gpt-x" }).state.pending
      = ({ State.initial with inputValue := "/model gpt-x" }).pending ∧
    (sendMessage (referenceRuntime ⟨0, 1, by decide⟩ "" "") (chatAnswers "Sure!")
        { State.initial with inputValue := "/model gpt-x" }).state.chatMessages
      = ({ State.initial with inputValue := "/model gpt-x" }).chatMessages ++
        [⟨.user, "/model " ++ "gpt-x"⟩, ⟨.bot, "Sure!"⟩]) :=
  ⟨by decide, by decide, model_command_is_posted_to_chat _ _ _ _ _ (by decide) (by decide)⟩

/-- C9, the divergence: when a command reaches the responder through the
fallback path, the call it delegates to is started (its request follows the
chat request) and the responder returns the empty string; `sendMessage` then
appends a bot Turn with that empty text to the log, before the warning, and
to `conversationHistory`.  When the template literal of line 84 throws, the
fallback runs twice: the call is started twice and two empty Turns are
appended. -/
theorem command_fallback_appends_empty_turn (rt : Runtime) (net : Remote) (s : State)
    (t : Task) (hne : trim s.inputValue ≠ "") (hfail : net.chat.delivers = none)
    (ht : commandTask (rt.toLowerCase (trim s.inputValue)) (trim s.inputValue) = some t) :
    (sendMessage rt net s).state.chatMessages = s.chatMessages ++
      (if net.chat.warningThrows then
        [⟨.user, trim s.inputValue⟩, ⟨.bot, ""⟩, ⟨.bot, ""⟩, ⟨.bot, fallbackWarning net.chat⟩]
      else [⟨.user, trim s.inputValue⟩, ⟨.bot, ""⟩, ⟨.bot, fallbackWarning net.chat⟩]) ∧
    (sendMessage rt net s).state.conversationHistory = s.conversationHistory ++
      (if net.chat.warningThrows then
        [⟨.user, trim s.inputValue⟩, ⟨.bot, ""⟩, ⟨.bot, ""⟩]
      else [⟨.user, trim s.inputValue⟩, ⟨.bot, ""⟩]) ∧
    (sendMessage rt net s).state.requests = s.requests ++
      (if net.chat.warningThrows then
        [.postChat (trim s.inputValue), t.request, t.request]
      else [.postChat (trim s.inputValue), t.request]) ∧
    (sendMessage rt net s).state.pending = s.pending ++
      (if net.chat.warningThrows then [t, t] else [t]) := by
  have hg : ∀ s0 : State, generateResponse rt (trim s.inputValue) s0 = .normal ""
      { s0 with requests := s0.requests ++ [t.request], evalCalls := s0.evalCalls ++ [],
                pending := s0.pending ++ [t] } := by
    intro s0
    rw [generateResponse_command rt _ t ht s0]
    simp
  have hg2 : ∀ s0 : State, generateResponse rt.retry (trim s.inputValue) s0 = .normal ""
      { s0 with requests := s0.requests ++ [t.request], evalCalls := s0.evalCalls ++ [],
                pending := s0.pending ++ [t] } := by
    intro s0
    rw [generateResponse_command rt.retry _ t ht s0]
    simp
  cases hthrows : net.chat.warningThrows with
  | false =>
    rw [sendMessage_failure_run rt net s hne hfail hthrows "" [t.request] [] [t] hg]
    simp [Completion.state]
  | true =>
    rw [sendMessage_twice_run rt net s hne hthrows "" "" [t.request] [t.request] [] []
      [t] [t] hg hg2]
    have hw : fallbackWarning net.chat
        = "⚠️ Cannot connect to Ollama. Using fallback responses." := by
      cases hchat : net.chat with
      | rejects => rfl
      | response ok body =>
        cases ok with
        | false => rfl
        | true =>
          cases body with
          | jsonRejects => rfl
          | null => rfl
          | value fields =>
            simp only [hchat, Fetched.warningThrows, Bool.and_eq_true, Bool.not_eq_true',
              Option.isNone_iff_eq_none] at hthrows
            simp [fallbackWarning, hthrows.1, hthrows.2]
    simp [Completion.state, hw]

/-- C9 at the input "/model gpt-x" with the service unreachable: the log is
the command, an empty bot Turn, the warning; after the pending call has
finished its own message follows. -/
theorem command_fallback_appends_empty_turn_witness :
    (settle unreachable (sendMessage (referenceRuntime ⟨0, 1, by decide⟩ "" "") unreachable
        { State.initial with inputValue := "/model gpt-x" }).state).state.chatMessages
      = [⟨.user, "/model gpt-x"⟩, ⟨.bot, ""⟩,
         ⟨.bot, "⚠️ Cannot connect to Ollama. Using fallback responses."⟩,
         ⟨.bot, "❌ Error switching model"⟩] ∧
    (sendMessage (referenceRuntime ⟨0, 1, by decide⟩ "" "") unreachable
        { State.initial with inputValue := "/model gpt-x" }).state.conversationHistory
      = [⟨.user, "/model gpt-x"⟩, ⟨.bot, ""⟩] ∧
    ((sendMessage (referenceRuntime ⟨0, 1, by decide⟩ "" "") unreachable
        { State.initial with inputValue := "/model gpt-x" }).state.chatMessages
      = ({ State.initial with inputValue := "/model gpt-x" }).chatMessages ++
        (if unreachable.chat.warningThrows then
          [⟨.user, trim ({ State.initial with inputValue := "/model gpt-x" }).inputValue⟩,
           ⟨.bot, ""⟩, ⟨.bot, ""⟩, ⟨.bot, fallbackWarning unreachable.chat⟩]
        else
          [⟨.user, trim ({ State.initial with inputValue := "/model gpt-x" }).inputValue⟩,
           ⟨.bot, ""⟩, ⟨.bot, fallbackWarning unreachable.chat⟩]) ∧
    (sendMessage (referenceRuntime ⟨0, 1, by decide⟩ "" "") unreachable
        { State.initial with inputValue := "/model gpt-x" }).state.conversationHistory
      = ({ State.initial with inputValue := "/model gpt-x" }).conversationHistory ++
        (if unreachable.chat.warningThrows then
          [⟨.user, trim ({ State.initial with inputValue := "/model gpt-x" }).inputValue⟩,
           ⟨.bot, ""⟩, ⟨.bot, ""⟩]
        else
          [⟨.user, trim ({ State.initial with inputValue := "/model gpt-x" }).inputValue⟩,
           ⟨.bot, ""⟩]) ∧
    (sendMessage (referenceRuntime ⟨0, 1, by decide⟩ "" "") unreachable
        { State.initial with inputValue := "/model gpt-x" }).state.requests
      = ({ State.initial with inputValue := "/model gpt-x" }).requests ++
        (if unreachable.chat.warningThrows then
          [.postChat (trim ({ State.initial with inputValue := "/model gpt-x" }).inputValue),
           (Task.setModel "gpt-x").request, (Task.setModel "gpt-x").request]
        else
          [.postChat (trim ({ State.initial with inputValue := "/model gpt-x" }).inputValue),
           (Task.setModel "gpt-x").request]) ∧
    (sendMessage (referenceRuntime ⟨0, 1, by decide⟩ "" "") unreachable
        { State.initial with inputValue := "/model gpt-x" }).state.pending
      = ({ State.initial with inputValue := "/model gpt-x" }).pending ++
        (if unreachable.chat.warningThrows then [Task.setModel "gpt-x", Task.setModel "gpt-x"]
        else [Task.setModel "gpt-x"])) :=
  ⟨by decide, by decide,
    command_fallback_appends_empty_turn _ _ _ _ (by decide) (by decide) (by decide)⟩

/-! ## Clearing the conversation -/

/-- What `clearConversation` does, by its own test: it never throws; it
empties `conversationHistory` and replaces the log by the "cleared" greeting
when a body with a truthy `success` arrives, under any status; otherwise it
leaves the widget as it was, but for the request that went out. -/
theorem clearConversation_run (net : Remote) (s : State) :
    (clearConversation net s).threw = false ∧
    (clearConversation net s).state.conversationHistory
      = (if net.clear.bodySucceeds then [] else s.conversationHistory) ∧
    (clearConversation net s).state
      = (if net.clear.bodySucceeds then
          { s with
            conversationHistory := [],
            chatMessages := [⟨.bot, "Conversation cleared! How can I help you today?"⟩],
            requests := s.requests ++ [.postClear] }
        else { s with requests := s.requests ++ [.postClear] }) := by
  cases hclear : net.clear with
  | rejects =>
    simp [clearConversation, clearConversationResumed, issue, hclear, receiveJson,
      Fetched.bodySucceeds, Completion.threw, Completion.state]
  | response ok body =>
    cases body with
    | jsonRejects =>
      simp [clearConversation, clearConversationResumed, issue, hclear, receiveJson,
        Fetched.bodySucceeds, Completion.threw, Completion.state]
    | null =>
      simp [clearConversation, clearConversationResumed, issue, hclear, receiveJson, fieldsOf,
        Fetched.bodySucceeds, Completion.threw, Completion.state]
    | value fields =>
      cases ht : fields.success.truthy <;>
        simp [clearConversation, clearConversationResumed, issue, hclear, receiveJson,
          fieldsOf, Fetched.bodySucceeds, Completion.threw, Completion.state, ht]

/-- C7, the failing input: when the clear call is answered with a status that
is not 2xx and a body whose `success` is truthy, the remote call has not
reported success, yet `clearConversation` empties `conversationHistory` and
replaces the log by the "cleared" greeting.  It does not throw. -/
theorem clearConversation_clears_on_error_status (net : Remote) (s : State)
    (fields : ClearFields) (h : net.clear = .response false (.value fields))
    (ht : fields.success.truthy = true) :
    net.clear.reportsSuccess = false ∧
    (clearConversation net s).threw = false ∧
    (clearConversation net s).state.conversationHistory = [] ∧
    (clearConversation net s).state.chatMessages
      = [⟨.bot, "Conversation cleared! How can I help you today?"⟩] := by
  simp [clearConversation, clearConversationResumed, issue, h, receiveJson, fieldsOf,
    Fetched.reportsSuccess, Completion.threw, Completion.state, ht]

/-- C7 on a history of two Turns, with status 500 and the body
`{"success": true}`: the history is emptied. -/
theorem clearConversation_clears_on_error_status_witness :
    (clearConversation clearAnswers500
      { State.initial with conversationHistory := [⟨.user, "hi"⟩, ⟨.bot, "Hello!"⟩] }
      ).state.conversationHistory = [] ∧
    (clearAnswers500.clear.reportsSuccess = false ∧
    (clearConversation clearAnswers500
      { State.initial with conversationHistory := [⟨.user, "hi"⟩, ⟨.bot, "Hello!"⟩] }
      ).threw = false ∧
    (clearConversation clearAnswers500
      { State.initial with conversationHistory := [⟨.user, "hi"⟩, ⟨.bot, "Hello!"⟩] }
      ).state.conversationHistory = [] ∧
    (clearConversation clearAnswers500
      { State.initial with conversationHistory := [⟨.user, "hi"⟩, ⟨.bot, "Hello!"⟩] }
      ).state.chatMessages
      = [⟨.bot, "Conversation cleared! How can I help you today?"⟩]) :=
  ⟨by decide, clearConversation_clears_on_error_status _ _ ⟨.bool true⟩ (by decide) (by decide)⟩

/-! ## The connection check -/

theorem checkOllamaConnection_never_throws (net : Remote) (s : State) :
    (checkOllamaConnection net s).threw = false := by
  cases hh : net.health with
  | rejects =>
    simp [checkOllamaConnection, checkOllamaConnectionResumed, issue, hh, receiveJson,
          fieldsOf, template, Completion.threw]
  | response ok body =>
    cases body with
    | jsonRejects =>
      simp [checkOllamaConnection, checkOllamaConnectionResumed, issue, hh, receiveJson,
          fieldsOf, template, Completion.threw]
    | null =>
      simp [checkOllamaConnection, checkOllamaConnectionResumed, issue, hh, receiveJson,
          fieldsOf, template, Completion.threw]
    | value fields =>
      cases ht : fields.ollama_connected.truthy <;>
        cases hm : fields.current_model.render <;>
          simp [checkOllamaConnection, checkOllamaConnectionResumed, issue, hh, receiveJson,
          fieldsOf, template, Completion.threw, ht, hm]

theorem checkOllamaConnection_failure_run (net : Remote) (s : State)
    (h : net.health.bodyUnreadable = true) :
    checkOllamaConnection net s = .normal ()
      { s with
        ollamaConnected := .bool false,
        chatMessages := s.chatMessages ++ [backendWarning],
        messageCount := if s.isOpen then s.messageCount else s.messageCount + 1,
        requests := s.requests ++ [.getHealth] } := by
  cases hh : net.health with
  | rejects =>
    cases ho : s.isOpen <;>
      simp [checkOllamaConnection, checkOllamaConnectionResumed, issue, hh, receiveJson,
          fieldsOf, template, ho, backendWarning]
  | response ok body =>
    cases body with
    | jsonRejects =>
      cases ho : s.isOpen <;>
        simp [checkOllamaConnection, checkOllamaConnectionResumed, issue, hh, receiveJson,
          fieldsOf, template, ho, backendWarning]
    | null =>
      cases ho : s.isOpen <;>
        simp [checkOllamaConnection, checkOllamaConnectionResumed, issue, hh, receiveJson,
          fieldsOf, template, ho, backendWarning]
    | value fields => simp [hh, Fetched.bodyUnreadable] at h

/-- The part of the connection check that holds: `checkOllamaConnection` never
throws, whatever the service does.  When `fetch` rejects, `json()` rejects or
the body is `null` it sets `ollamaConnected` to false and appends exactly one
warning Turn; so two calls in a row against a service that cannot be read
leave `ollamaConnected` false after each of them. -/
theorem checkOllamaConnection_unreachable (net1 net2 : Remote) (s : State)
    (h1 : net1.health.bodyUnreadable = true) (h2 : net2.health.bodyUnreadable = true) :
    (∀ net0 s0, (checkOllamaConnection net0 s0).threw = false) ∧
    (checkOllamaConnection net1 s).state.ollamaConnected = .bool false ∧
    (checkOllamaConnection net1 s).state.chatMessages = s.chatMessages ++ [backendWarning] ∧
    backendWarning.isWarning = true ∧
    (checkOllamaConnection net2 (checkOllamaConnection net1 s).state).threw = false ∧
    (checkOllamaConnection net2 (checkOllamaConnection net1 s).state).state.ollamaConnected
      = .bool false ∧
    (checkOllamaConnection net2 (checkOllamaConnection net1 s).state).state.chatMessages
      = s.chatMessages ++ [backendWarning, backendWarning] := by
  refine ⟨checkOllamaConnection_never_throws, ?_, ?_, by decide,
    checkOllamaConnection_never_throws _ _, ?_, ?_⟩
  · rw [checkOllamaConnection_failure_run net1 s h1]
    rfl
  · rw [checkOllamaConnection_failure_run net1 s h1]
    rfl
  · rw [checkOllamaConnection_failure_run net2 _ h2]
    rfl
  · rw [checkOllamaConnection_failure_run net2 _ h2, checkOllamaConnection_failure_run net1 s h1]
    simp [Completion.state]

/-- Two calls from the constructor's state against an unreachable service. -/
theorem checkOllamaConnection_unreachable_witness :
    unreachable.health.bodyUnreadable = true ∧
    ((∀ net0 s0, (checkOllamaConnection net0 s0).threw = false) ∧
    (checkOllamaConnection unreachable State.initial).state.ollamaConnected = .bool false ∧
    (checkOllamaConnection unreachable State.initial).state.chatMessages
      = State.initial.chatMessages ++ [backendWarning] ∧
    backendWarning.isWarning = true ∧
    (checkOllamaConnection unreachable
      (checkOllamaConnection unreachable State.initial).state).threw = false ∧
    (checkOllamaConnection unreachable
      (checkOllamaConnection unreachable State.initial).state).state.ollamaConnected
      = .bool false ∧
    (checkOllamaConnection unreachable
      (checkOllamaConnection unreachable State.initial).state).state.chatMessages
      = State.initial.chatMessages ++ [backendWarning, backendWarning]) :=
  ⟨by decide, checkOllamaConnection_unreachable _ _ _ (by decide) (by decide)⟩

theorem connected_message_is_no_warning (name : String) :
    (Turn.mk .bot ("🤖 Connected to Ollama! Using model: " ++ name)).isWarning = false := by
  simp +decide [Turn.isWarning, startsWith, String.data_append, startsWithChars]

/-- C8, the failing input: when the health check is answered with a status
that is not 2xx, a transport error, and a body that says
`ollama_connected: true`, `checkOllamaConnection` does not throw, stores `true`
in `ollamaConnected` and appends the "Connected" message, which is no warning
Turn.  The status of the response is never looked at. -/
theorem checkOllamaConnection_trusts_error_status (net : Remote) (s : State)
    (model : JsVal) (name : String)
    (h : net.health = .response false (.value ⟨.bool true, model⟩))
    (hm : model.render = some name) :
    net.health.transportOrParseError = true ∧
    (checkOllamaConnection net s).threw = false ∧
    (checkOllamaConnection net s).state.ollamaConnected = .bool true ∧
    (checkOllamaConnection net s).state.chatMessages = s.chatMessages ++
      [⟨.bot, "🤖 Connected to Ollama! Using model: " ++ name⟩] ∧
    (Turn.mk .bot ("🤖 Connected to Ollama! Using model: " ++ name)).isWarning = false := by
  refine ⟨by simp [h, Fetched.transportOrParseError], checkOllamaConnection_never_throws _ _,
    ?_, ?_, connected_message_is_no_warning name⟩
  · cases ho : s.isOpen <;>
      simp [checkOllamaConnection, checkOllamaConnectionResumed, issue, h, receiveJson,
        fieldsOf, template, hm, JsVal.truthy, Completion.state, ho]
  · cases ho : s.isOpen <;>
      simp [checkOllamaConnection, checkOllamaConnectionResumed, issue, h, receiveJson,
        fieldsOf, template, hm, JsVal.truthy, Completion.state, ho]

/-- C8 from the constructor's state, with status 503 and the body
`{"ollama_connected": true, "current_model": "llama3"}`. -/
theorem checkOllamaConnection_trusts_error_status_witness :
    (checkOllamaConnection healthAnswers503 State.initial).state.ollamaConnected
      = .bool true ∧
    (checkOllamaConnection healthAnswers503 State.initial).state.chatMessages
      = [⟨.bot, "🤖 Connected to Ollama! Using model: llama3"⟩] ∧
    (healthAnswers503.health.transportOrParseError = true ∧
    (checkOllamaConnection healthAnswers503 State.initial).threw = false ∧
    (checkOllamaConnection healthAnswers503 State.initial).state.ollamaConnected
      = .bool true ∧
    (checkOllamaConnection healthAnswers503 State.initial).state.chatMessages
      = State.initial.chatMessages ++
        [⟨.bot, "🤖 Connected to Ollama! Using model: " ++ "llama3"⟩] ∧
    (Turn.mk .bot ("🤖 Connected to Ollama! Using model: " ++ "llama3")).isWarning = false) :=
  ⟨by decide, by decide,
    checkOllamaConnection_trusts_error_status _ _ (.str "llama3") "llama3" (by decide)
      (by decide)⟩

/-! ## An open panel has no unread messages -/

theorem openMeansRead_initial : OpenMeansRead State.initial := by
  intro _
  rfl

theorem openMeansRead_step (a : Action) (s : State) (h : OpenMeansRead s) :
    OpenMeansRead (a.run s).state := by
  unfold OpenMeansRead at h ⊢
  cases a with
  | addMessage content sender =>
    cases ho : s.isOpen <;> simp_all [Action.run, Completion.state]
  | toggleChat =>
    cases ho : s.isOpen <;> simp [Action.run, toggleChat, Completion.state, ho]
  | closeChat =>
    simp [Action.run, closeChat, Completion.state]

theorem openMeansRead_runActions (actions : List Action) (s : State) (h : OpenMeansRead s) :
    OpenMeansRead (runActions actions s) := by
  induction actions generalizing s with
  | nil => exact h
  | cons a rest ih => exact ih _ (openMeansRead_step a s h)

/-- C11: in every state reached from the constructor's state (`isOpen` true,
`messageCount` 0) by any sequence of `addMessage`, `toggleChat` and
`closeChat`, an open panel has `messageCount` 0. -/
theorem open_panel_has_no_unread (actions : List Action)
    (hopen : (runActions actions State.initial).isOpen = true) :
    (runActions actions State.initial).messageCount = 0 :=
  openMeansRead_runActions actions State.initial openMeansRead_initial hopen

/-- C11 on the run: close, two messages, a toggle that opens, one message.
The counter stood at 2 before the toggle and reads 0 in the open panel. -/
theorem open_panel_has_no_unread_witness :
    (runActions [.closeChat, .addMessage "a" .bot, .addMessage "b" .bot]
      State.initial).messageCount = 2 ∧
    (runActions [.closeChat, .addMessage "a" .bot, .addMessage "b" .bot, .toggleChat,
      .addMessage "c" .bot] State.initial).isOpen = true ∧
    (runActions [.closeChat, .addMessage "a" .bot, .addMessage "b" .bot, .toggleChat,
      .addMessage "c" .bot] State.initial).messageCount = 0 :=
  ⟨by decide, by decide, open_panel_has_no_unread _ (by decide)⟩

end SimpleChatbot
